import Mathlib

/-!
Verification development for the OptionsTrader decision engine.

Shallow embedding of the engine components referenced by the checked
properties:

* `RegimeClassifier.classify`  (src/mcp_server/services/engine/regime.py)
* `StrategySelector.select`, `check_gates`, `score`, `parameterize`
  (src/mcp_server/services/engine/selector.py)
* `PositionSizer.calculate`, `SIZE_MULTIPLIER`, `vvix_adjustment`
  (src/mcp_server/services/engine/sizing.py)
* `AdjustmentEngine.evaluate` (src/mcp_server/services/engine/adjustments.py)
* `ExitEngine.evaluate`       (src/mcp_server/services/engine/exits.py)
* `StrategyUniverse.TEMPLATES` (src/mcp_server/services/engine/strategies.py)
* `TTLCache`                  (src/api/cache.py)

Python floats are modelled as exact rationals; Python round (banker
rounding, half to even) is modelled by `py_round`.  Free-text fields that
interpolate numeric values (gate failure reasons, rule detail strings,
risk-breach messages) carry no checked property and are modelled by their
static text or omitted; each such omission is noted at the definition.
Timestamps are omitted: no checked property mentions them.
-/

namespace OptionsTrader

/-- Python `round(x)` to an integer: nearest integer, ties to even. -/
def py_round_int (x : ℚ) : ℤ :=
  if x - ⌊x⌋ < 1/2 then ⌊x⌋
  else if x - ⌊x⌋ > 1/2 then ⌊x⌋ + 1
  else if 2 ∣ ⌊x⌋ then ⌊x⌋ else ⌊x⌋ + 1

/-- Python `round(x, n)` for rationals. -/
def py_round (n : ℕ) (x : ℚ) : ℚ := (py_round_int (x * 10 ^ n) : ℚ) / 10 ^ n

/-- Python `x or default` for an optional float: `None` and `0.0` are falsy. -/
def or_default (x : Option ℚ) (d : ℚ) : ℚ :=
  match x with
  | none => d
  | some v => if v = 0 then d else v

-- ── Enumerations (src/mcp_server/engine_models.py) ──────────────────────

inductive VolRegime
  | VERY_LOW | LOW | NORMAL | ELEVATED | HIGH | EXTREME | CRISIS | LIQUIDITY_STRESS
deriving DecidableEq

/-- The `.value` string of the Python `str`-valued enum. -/
def VolRegime.value : VolRegime → String
  | .VERY_LOW => "VERY_LOW"
  | .LOW => "LOW"
  | .NORMAL => "NORMAL"
  | .ELEVATED => "ELEVATED"
  | .HIGH => "HIGH"
  | .EXTREME => "EXTREME"
  | .CRISIS => "CRISIS"
  | .LIQUIDITY_STRESS => "LIQUIDITY_STRESS"

inductive Trend
  | STRONG_UPTREND | UPTREND | RANGE_BOUND | DOWNTREND | STRONG_DOWNTREND
deriving DecidableEq

inductive Confidence
  | HIGH | MEDIUM | LOW
deriving DecidableEq

inductive EventType
  | FOMC | CPI | NFP | EARNINGS | NONE
deriving DecidableEq

def EventType.value : EventType → String
  | .FOMC => "FOMC"
  | .CPI => "CPI"
  | .NFP => "NFP"
  | .EARNINGS => "EARNINGS"
  | .NONE => "NONE"

inductive StrategyFamily
  | SHORT_PREMIUM | LONG_PREMIUM | HEDGING | TAIL_TRADING | RELATIVE_VALUE
deriving DecidableEq

inductive StrategyObjective
  | INCOME | DIRECTIONAL_BULLISH | DIRECTIONAL_BEARISH | EVENT_HARVEST | EVENT_VOL
  | PORTFOLIO_HEDGE | TAIL_HEDGE | SYSTEMATIC_TAIL | SPOT_RECOVERY
  | REALIZED_VOL_CAPTURE | VIX_NORMALIZATION | CORRELATION_RV
  | CARRY_WITH_PROTECTION | SECTOR_MEAN_REVERSION
deriving DecidableEq

inductive RulePriority
  | CRITICAL | HIGH | MEDIUM | LOW
deriving DecidableEq

inductive RecommendationType
  | TRADE | TRADE_CAUTIOUS | LOW_CONVICTION | NO_TRADE | REGIME_UNCERTAIN
deriving DecidableEq

-- ── Market inputs (src/mcp_server/engine_models.py) ─────────────────────

structure SpotData where
  spx_level : ℚ
  spx_ret_1d : ℚ := 0
  spx_ret_5d : ℚ := 0
  spx_ret_20d : ℚ := 0
  spx_sma_50 : ℚ
  spx_sma_200 : ℚ
  breadth_pct_above_50dma : ℚ := 50

structure VolData where
  vix : ℚ
  vix_1d_change : ℚ := 0
  vix_5d_change : ℚ := 0
  vix_percentile_1y : ℚ := 50
  vvix : ℚ := 18
  vix9d : ℚ := 0
  iv_atm_1m : ℚ := 0
  iv_atm_3m : ℚ := 0
  iv_atm_6m : ℚ := 0
  rv_10d : ℚ := 0
  rv_20d : ℚ := 0
  rv_30d : ℚ := 0
  iv_rv_spread : ℚ := 0

structure SkewData where
  put_skew_25d_1m : ℚ := 5
  put_skew_25d_3m : ℚ := 5
  risk_reversal_25d : ℚ := 0
  skew_pctile_1y : ℚ := 50

structure TermStructureData where
  ts_1m_3m : ℚ := 0
  ts_3m_6m : ℚ := 0
  ts_slope : ℚ := 0
  vix_futures_1m : ℚ := 0
  vix_futures_3m : ℚ := 0
  roll_yield : ℚ := 0

structure EventCalendarData where
  days_to_fomc : ℤ := 30
  days_to_cpi : ℤ := 30
  days_to_nfp : ℤ := 30
  days_to_earnings : ℤ := 30
  events_next_5d : ℤ := 0
  events_next_20d : ℤ := 0

structure CreditMacroData where
  hy_oas : ℚ := 400
  hy_oas_20d_change : ℚ := 0
  ig_spread : ℚ := 100
  fed_funds_rate : ℚ := 5
  us_10y_yield : ℚ := 4
  us_2s10s : ℚ := 0

structure LiquidityData where
  spx_bid_ask : ℚ := 5/100
  spx_bid_ask_20d_ma : ℚ := 5/100
  bid_ask_widening : ℚ := 1
  emini_depth : ℚ := 1000
  options_volume_oi : ℚ := 1/2

structure CorrelationData where
  implied_corr : ℚ := 50
  realized_corr_20d : ℚ := 50
  corr_pctile_1y : ℚ := 50
  dispersion : ℚ := 0

/-- All market data inputs for the decision engine (timestamp omitted). -/
structure MarketInputs where
  spot : SpotData
  vol : VolData
  skew : SkewData := {}
  term_structure : TermStructureData := {}
  events : EventCalendarData := {}
  credit : CreditMacroData := {}
  liquidity : LiquidityData := {}
  correlation : CorrelationData := {}

/-- Output of the regime classifier (timestamp omitted). -/
structure RegimeResult where
  regime : VolRegime
  trend : Trend := .RANGE_BOUND
  event_active : Bool := false
  event_type : EventType := .NONE
  multi_event : Bool := false
  vol_unstable : Bool := false
  confidence : Confidence := .MEDIUM
  confirming_signals : ℕ := 0
  actions : List String := []

-- ── Regime classifier (src/mcp_server/services/engine/regime.py) ────────

/-- Normal E-mini depth baseline (contracts) for liquidity comparison. -/
def NORMAL_EMINI_DEPTH : ℚ := 1500

namespace RegimeClassifier

/-- `RegimeClassifier._classify_trend`. -/
def classify_trend (s : SpotData) : Trend :=
  if s.spx_level > s.spx_sma_50 ∧ s.spx_level > s.spx_sma_200 then
    if s.breadth_pct_above_50dma > 60 then .STRONG_UPTREND else .UPTREND
  else if s.spx_level < s.spx_sma_50 ∧ s.spx_level < s.spx_sma_200 then
    if s.breadth_pct_above_50dma < 40 then .STRONG_DOWNTREND else .DOWNTREND
  else .RANGE_BOUND

/-- The crisis signal sum of `classify`, priority 1. -/
def crisis_signals (i : MarketInputs) : ℕ :=
  (if i.vol.vix > 30 then 2 else 0)
  + (if i.vol.vix_1d_change > 5 then 2 else 0)
  + (if i.vol.vix > 35 then 1 else 0)
  + (if i.credit.hy_oas_20d_change > 50 then 1 else 0)
  + (if i.term_structure.ts_1m_3m < 0 then 1 else 0)
  + (if i.liquidity.bid_ask_widening > 2 then 1 else 0)

/-- The liquidity stress signal sum of `classify`, priority 2. -/
def liquidity_stress (i : MarketInputs) : ℕ :=
  (if i.liquidity.bid_ask_widening > 3/2 then 1 else 0)
  + (if i.liquidity.spx_bid_ask > i.liquidity.spx_bid_ask_20d_ma * (13/10) then 1 else 0)
  + (if i.liquidity.emini_depth < (6/10) * NORMAL_EMINI_DEPTH then 1 else 0)
  + (if i.credit.hy_oas_20d_change > 30 then 1 else 0)

/-- Event window activity, priority 3 (the if/elif chain of `classify`). -/
def event_active (ev : EventCalendarData) : Bool :=
  if ev.days_to_fomc ≤ 5 then true
  else if ev.days_to_cpi ≤ 3 then true
  else if ev.days_to_nfp ≤ 3 then true
  else if ev.days_to_earnings ≤ 3 then true
  else false

/-- Event type selected by the if/elif chain of `classify`, priority 3. -/
def event_type_of (ev : EventCalendarData) : EventType :=
  if ev.days_to_fomc ≤ 5 then .FOMC
  else if ev.days_to_cpi ≤ 3 then .CPI
  else if ev.days_to_nfp ≤ 3 then .NFP
  else if ev.days_to_earnings ≤ 3 then .EARNINGS
  else .NONE

/-- Vol level from VIX spot, priority 4. -/
def vol_level (vix : ℚ) : VolRegime :=
  if vix < 12 then .VERY_LOW
  else if vix < 15 then .LOW
  else if vix < 20 then .NORMAL
  else if vix < 25 then .ELEVATED
  else if vix ≤ 30 then .HIGH
  else .EXTREME

/-- `RegimeClassifier._score_confidence`. -/
def score_confidence (vol_regime : VolRegime) (v : VolData) (sk : SkewData)
    (ts : TermStructureData) (c : CreditMacroData) : ℕ :=
  (if (vol_regime = .LOW ∨ vol_regime = .VERY_LOW) ∧ v.iv_rv_spread < 2 then 1
   else if (vol_regime = .ELEVATED ∨ vol_regime = .HIGH) ∧ v.iv_rv_spread > 3 then 1
   else 0)
  + (if (vol_regime = .ELEVATED ∨ vol_regime = .HIGH) ∧ sk.put_skew_25d_1m > 6 then 1
     else if (vol_regime = .LOW ∨ vol_regime = .VERY_LOW) ∧ sk.put_skew_25d_1m < 4 then 1
     else 0)
  + (if (vol_regime = .LOW ∨ vol_regime = .NORMAL) ∧ ts.ts_1m_3m > 0 then 1
     else if vol_regime = .HIGH ∧ ts.ts_1m_3m < 1 then 1
     else 0)
  + (if (vol_regime = .LOW ∨ vol_regime = .NORMAL) ∧ c.hy_oas_20d_change < 20 then 1
     else if (vol_regime = .ELEVATED ∨ vol_regime = .HIGH) ∧ c.hy_oas_20d_change > 30 then 1
     else 0)

/-- Fixed action checklist of the crisis early return. -/
def crisis_actions : List String :=
  [ "CLOSE all naked short vol positions immediately",
    "CLOSE all positions if VIX > 35 [GS Vol Vitals]",
    "ONLY defined-risk spreads allowed (5-10 delta, 14-21 DTE)",
    "Position size: 25% of baseline or FLAT",
    "Activate tail hedges if not already on",
    "Monitor for VIX peak (avg duration 2-4 weeks, avg peak ~45)" ]

/-- Fixed action checklist of the liquidity-stress early return. -/
def liquidity_actions : List String :=
  [ "REDUCE all positions by 25-50%",
    "NO new naked short vol positions",
    "Tighten stops on existing positions",
    "Begin adding tail hedges (VIX call spreads)",
    "Monitor: if persists >10 days, move to crisis protocol" ]

/-- `RegimeClassifier._build_actions`. -/
def build_actions (vol_regime : VolRegime) (trend : Trend)
    (evt_active : Bool) (vol_unstable : Bool) : List String :=
  (match vol_regime with
   | .VERY_LOW =>
     [ "Maximize premium selling at full size",
       "Cheap convexity available - consider tail hedges" ]
   | .LOW =>
     [ "Full premium selling allowed",
       "Begin building convexity positions" ]
   | .NORMAL => [ "Standard position sizes, balanced approach" ]
   | .ELEVATED =>
     [ "Reduce selling to 50% size; defined-risk only for new trades",
       "Review all naked positions for rolling/closing" ]
   | .HIGH =>
     [ "Only defined-risk spreads at 25% size",
       "Consider long convexity positions" ]
   | .EXTREME =>
     [ "No premium selling",
       "Buy convexity only; activate crisis protocol" ]
   | _ => [])
  ++ (if evt_active then ["Event window active - use event playbook"] else [])
  ++ (if vol_unstable then ["VVIX > 22: vol surface unstable, reduce sizes 25-50%"] else [])
  ++ (if trend = .STRONG_DOWNTREND ∨ trend = .DOWNTREND then
        ["Downtrend: favor bearish strategies, tighten upside"]
      else if trend = .STRONG_UPTREND ∨ trend = .UPTREND then
        ["Uptrend: favor bullish strategies, maintain hedges"]
      else [])

/-- `RegimeClassifier.classify`: the full priority-ordered classification. -/
def classify (i : MarketInputs) : RegimeResult :=
  if 3 ≤ crisis_signals i then
    { regime := .CRISIS,
      trend := classify_trend i.spot,
      confidence := if 5 ≤ crisis_signals i then .HIGH else .MEDIUM,
      confirming_signals := crisis_signals i,
      actions := crisis_actions }
  else if 2 ≤ liquidity_stress i then
    { regime := .LIQUIDITY_STRESS,
      trend := classify_trend i.spot,
      confidence := .MEDIUM,
      confirming_signals := liquidity_stress i,
      actions := liquidity_actions }
  else
    { regime := vol_level i.vol.vix,
      trend := classify_trend i.spot,
      event_active := event_active i.events,
      event_type := event_type_of i.events,
      multi_event := 2 ≤ i.events.events_next_5d,
      vol_unstable := i.vol.vvix > 22,
      confidence :=
        if 3 ≤ score_confidence (vol_level i.vol.vix) i.vol i.skew i.term_structure i.credit
        then .HIGH
        else if 2 ≤ score_confidence (vol_level i.vol.vix) i.vol i.skew i.term_structure i.credit
        then .MEDIUM
        else .LOW,
      confirming_signals :=
        score_confidence (vol_level i.vol.vix) i.vol i.skew i.term_structure i.credit,
      actions :=
        build_actions (vol_level i.vol.vix) (classify_trend i.spot)
          (event_active i.events) (i.vol.vvix > 22) }

end RegimeClassifier

-- ── Strategy templates (src/mcp_server/engine_models.py, strategies.py) ─

/-- A strategy template from the strategy universe.  `base_delta` is an
integer or a per-leg mapping; `base_dte`, `profit_target` and `stop_loss`
are numbers or symbolic strings, as in the source.  The source field
named `structure` is rendered `structure_descr` (Lean keyword). -/
structure StrategyTemplate where
  name : String
  family : StrategyFamily
  objective : StrategyObjective
  legs : ℕ
  base_delta : ℤ ⊕ List (String × ℤ) := .inl 15
  base_dte : ℤ ⊕ String := .inl 37
  width_pct : Option ℚ := none
  profit_target : ℚ ⊕ String := .inl (1/2)
  stop_loss : ℚ ⊕ String := .inl 2
  roll_dte : Option ℤ := some 21
  win_rate : Option ℚ := none
  sharpe_hist : Option ℚ := none
  regime_allowed : List String := ["ALL"]
  regime_excluded : List String := []
  event_block : Bool := false
  event_required : Bool := false
  iv_rank_min : Option ℤ := none
  iv_rank_max : Option ℤ := none
  vix_max : Option ℚ := none
  structure_descr : Option String := none
  cost : Option String := none
  cost_budget : Option ℚ := none
  description : String := ""

-- The 19 catalog templates of `StrategyUniverse.TEMPLATES`, one def per
-- dict entry, named by its dict key.

def cash_secured_put : StrategyTemplate :=
  { name := "cash_secured_put", family := .SHORT_PREMIUM, objective := .INCOME,
    legs := 1, base_delta := .inl 12, base_dte := .inl 37,
    profit_target := .inl (1/2), stop_loss := .inl 2, roll_dte := some 21,
    win_rate := some (74/100), sharpe_hist := some (1/2),
    regime_allowed := ["VERY_LOW", "LOW", "NORMAL", "ELEVATED"],
    regime_excluded := ["HIGH", "EXTREME", "CRISIS"],
    event_block := true,
    description := "GS Art of Put Selling: 10-15 delta, 74% win rate, 30-45 DTE" }

def put_credit_spread : StrategyTemplate :=
  { name := "put_credit_spread", family := .SHORT_PREMIUM, objective := .INCOME,
    legs := 2, base_delta := .inr [("short", 17), ("long", 7)], base_dte := .inl 37,
    width_pct := some (7/100), profit_target := .inl (1/2), stop_loss := .inl 1,
    roll_dte := some 21,
    regime_allowed := ["VERY_LOW", "LOW", "NORMAL", "ELEVATED", "HIGH"],
    regime_excluded := ["CRISIS"], event_block := true,
    description := "Defined-risk put spread, 7% width between strikes" }

def short_strangle : StrategyTemplate :=
  { name := "short_strangle", family := .SHORT_PREMIUM, objective := .INCOME,
    legs := 2, base_delta := .inr [("put", 17), ("call", 17)], base_dte := .inl 37,
    profit_target := .inl (1/2), stop_loss := .inl 2, roll_dte := some 21,
    regime_allowed := ["LOW", "NORMAL"],
    regime_excluded := ["ELEVATED", "HIGH", "EXTREME", "CRISIS"],
    event_block := true, iv_rank_min := some 50,
    description := "Naked strangle, only in low/normal vol with IV rank > 50th" }

def iron_condor : StrategyTemplate :=
  { name := "iron_condor", family := .SHORT_PREMIUM, objective := .INCOME,
    legs := 4,
    base_delta := .inr [("short_put", 17), ("long_put", 7), ("short_call", 17), ("long_call", 7)],
    base_dte := .inl 37, profit_target := .inl (1/2), stop_loss := .inl (1/4),
    roll_dte := some 21,
    regime_allowed := ["LOW", "NORMAL", "ELEVATED"],
    regime_excluded := ["HIGH", "EXTREME", "CRISIS"], event_block := true,
    description := "4-leg defined-risk; close at 50% profit or 25% of max loss early" }

def covered_call : StrategyTemplate :=
  { name := "covered_call", family := .SHORT_PREMIUM, objective := .INCOME,
    legs := 1, base_delta := .inl 30, base_dte := .inl 30,
    sharpe_hist := some (76/100),
    regime_allowed := ["VERY_LOW", "LOW", "NORMAL", "ELEVATED"],
    regime_excluded := ["CRISIS"],
    description := "GS Overwriting: large-cap Sharpe 0.76, Q5 FCF yield = 8.8%" }

def calendar_spread_short_front : StrategyTemplate :=
  { name := "calendar_spread_short_front", family := .SHORT_PREMIUM,
    objective := .EVENT_HARVEST, legs := 2, base_delta := .inl 50,
    base_dte := .inr "event_dte",
    profit_target := .inr "front_expires_worthless",
    stop_loss := .inr "realized_move > 1.5x implied_move",
    regime_allowed := ["ALL"], event_required := true,
    description := "ATM calendar selling front-end event IV, buying back-month" }

def put_debit_spread : StrategyTemplate :=
  { name := "put_debit_spread", family := .LONG_PREMIUM,
    objective := .DIRECTIONAL_BEARISH, legs := 2,
    base_delta := .inr [("long", 35), ("short", 17)], base_dte := .inl 52,
    width_pct := some (12/100), profit_target := .inl 1, stop_loss := .inl (1/2),
    regime_allowed := ["ELEVATED", "HIGH", "NORMAL"],
    description := "Bearish debit spread, 45-60 DTE, 2:1 R/R target" }

def call_debit_spread : StrategyTemplate :=
  { name := "call_debit_spread", family := .LONG_PREMIUM,
    objective := .DIRECTIONAL_BULLISH, legs := 2,
    base_delta := .inr [("long", 45), ("short", 27)], base_dte := .inl 52,
    profit_target := .inl 1, stop_loss := .inl (1/2),
    regime_allowed := ["VERY_LOW", "LOW", "NORMAL"],
    description := "Bullish debit spread, 45-60 DTE, 2:1 R/R target" }

def long_straddle : StrategyTemplate :=
  { name := "long_straddle", family := .LONG_PREMIUM, objective := .EVENT_VOL,
    legs := 2, base_delta := .inl 50, base_dte := .inr "event_dte + 7",
    profit_target := .inr "realized > 1.5x implied",
    stop_loss := .inr "theta > 25% of premium with no move",
    iv_rank_max := some 30, regime_allowed := ["LOW", "NORMAL"],
    event_required := true,
    description := "ATM straddle for event vol, only when IV rank < 30th" }

def put_ladder_1x2 : StrategyTemplate :=
  { name := "put_ladder_1x2", family := .HEDGING, objective := .PORTFOLIO_HEDGE,
    legs := 3, structure_descr := some "buy 1x ATM-5% put, sell 2x ATM-15% puts",
    base_dte := .inl 75, cost := some "zero_or_credit",
    regime_allowed := ["ELEVATED", "HIGH"],
    description := "Put ladder monetizing rich skew, protection -5% to -15%" }

def vix_call_spread : StrategyTemplate :=
  { name := "vix_call_spread", family := .HEDGING, objective := .TAIL_HEDGE,
    legs := 2, structure_descr := some "buy VIX call at current+4, sell at current+12",
    base_dte := .inl 45, cost_budget := some (1/100),
    regime_allowed := ["LOW", "NORMAL"], vix_max := some 20,
    description := "3-5x convexity vs SPX puts in crises (GS Hedging Toolkit)" }

def vix_collar_zero_cost : StrategyTemplate :=
  { name := "vix_collar_zero_cost", family := .HEDGING,
    objective := .PORTFOLIO_HEDGE, legs := 3,
    structure_descr := some "buy VIX call, sell higher VIX call, sell VIX put to fund",
    cost := some "zero", regime_allowed := ["NORMAL"],
    description := "Zero-cost VIX collar (JPM Equity Vol Strategy)" }

def scheduled_convexity : StrategyTemplate :=
  { name := "scheduled_convexity", family := .HEDGING,
    objective := .SYSTEMATIC_TAIL, legs := 1,
    structure_descr := some "buy 5-10 delta OTM puts monthly on schedule",
    cost_budget := some (1/100), regime_allowed := ["ALL"],
    description := "GS Asymmetric 27yr: scheduled > discretionary convexity" }

def tail_delta_pillar : StrategyTemplate :=
  { name := "tail_delta_pillar", family := .TAIL_TRADING,
    objective := .SPOT_RECOVERY, legs := 2,
    structure_descr := some "Long SPX 1M ATM-25D call spread",
    regime_allowed := ["ELEVATED", "HIGH", "CRISIS"],
    description := "Pillar 1: captures spot recovery, 1/22 notional per signal" }

def tail_gamma_pillar : StrategyTemplate :=
  { name := "tail_gamma_pillar", family := .TAIL_TRADING,
    objective := .REALIZED_VOL_CAPTURE, legs := 1,
    structure_descr := some "Long SPX 5D 25-delta calls, daily hedge at close",
    win_rate := some (622/1000),
    regime_allowed := ["ELEVATED", "HIGH", "CRISIS"],
    description := "Pillar 2: 62.2% hit rate capturing realized vol on recovery bounces" }

def tail_vega_pillar : StrategyTemplate :=
  { name := "tail_vega_pillar", family := .TAIL_TRADING,
    objective := .VIX_NORMALIZATION, legs := 3,
    structure_descr := some "Long VIX 1M ATM-25-10D put ladder",
    regime_allowed := ["ELEVATED", "HIGH", "CRISIS"],
    description := "Pillar 3: VIX mean reversion, 1/26 notional, match gamma vega" }

def dispersion_long : StrategyTemplate :=
  { name := "dispersion_long", family := .RELATIVE_VALUE,
    objective := .CORRELATION_RV, legs := 2,
    structure_descr := some "sell index vol, buy single-stock vol basket",
    base_dte := .inl 90, win_rate := some (5529/10000),
    regime_allowed := ["NORMAL", "LOW"],
    description := "JPM: 55.29% normal hit rate, enter when implied corr > 70th pctile" }

def variance_swap_ko : StrategyTemplate :=
  { name := "variance_swap_ko", family := .SHORT_PREMIUM,
    objective := .CARRY_WITH_PROTECTION, legs := 1,
    structure_descr := some "short KO variance swap (KO at 2.5x strike vol)",
    base_dte := .inl 60, regime_allowed := ["LOW", "NORMAL"],
    description := "JPM: caps left-tail at barrier, retains 85-90% of carry" }

def sector_iv_rv : StrategyTemplate :=
  { name := "sector_iv_rv", family := .RELATIVE_VALUE,
    objective := .SECTOR_MEAN_REVERSION, legs := 2,
    structure_descr := some "sell top-decile sector IV, buy bottom-decile",
    base_dte := .inl 60, regime_allowed := ["NORMAL", "LOW"],
    description := "Sector IV divergence > 40pts (5Y lookback) mean reversion" }

namespace StrategyUniverse

/-- `StrategyUniverse.TEMPLATES`, in dict insertion order. -/
def TEMPLATES : List (String × StrategyTemplate) :=
  [ ("cash_secured_put", cash_secured_put),
    ("put_credit_spread", put_credit_spread),
    ("short_strangle", short_strangle),
    ("iron_condor", iron_condor),
    ("covered_call", covered_call),
    ("calendar_spread_short_front", calendar_spread_short_front),
    ("put_debit_spread", put_debit_spread),
    ("call_debit_spread", call_debit_spread),
    ("long_straddle", long_straddle),
    ("put_ladder_1x2", put_ladder_1x2),
    ("vix_call_spread", vix_call_spread),
    ("vix_collar_zero_cost", vix_collar_zero_cost),
    ("scheduled_convexity", scheduled_convexity),
    ("tail_delta_pillar", tail_delta_pillar),
    ("tail_gamma_pillar", tail_gamma_pillar),
    ("tail_vega_pillar", tail_vega_pillar),
    ("dispersion_long", dispersion_long),
    ("variance_swap_ko", variance_swap_ko),
    ("sector_iv_rv", sector_iv_rv) ]

end StrategyUniverse

-- ── Selector output models (src/mcp_server/engine_models.py) ────────────

structure StrategyScore where
  total : ℚ
  edge : ℚ
  carry_fit : ℚ
  tail_risk : ℚ
  robustness : ℚ
  liquidity : ℚ
  complexity : ℚ

structure StrategyParams where
  delta : Option ℤ := none
  deltas : Option (List (String × ℤ)) := none
  dte : ℤ := 37
  size_multiplier : ℚ := 1
  profit_target : ℚ ⊕ String := .inl (1/2)
  stop_loss : ℚ ⊕ String := .inl 2
  roll_dte : Option ℤ := some 21

/-- Result of a single entry gate check.  The free-text `reason` field
(which interpolates numeric values in the source) is omitted: no checked
property mentions it. -/
structure GateCheckResult where
  gate_name : String
  passed : Bool

structure StrategyCandidate where
  name : String
  template : StrategyTemplate
  scores : StrategyScore
  params : StrategyParams
  gates : List GateCheckResult := []

/-- Final output of the strategy selector (timestamp omitted). -/
structure StrategyRecommendation where
  recommendation : RecommendationType
  strategies : List StrategyCandidate := []
  regime : RegimeResult
  note : String := ""

-- ── Position sizing (src/mcp_server/services/engine/sizing.py) ──────────

structure SizeMultipliers where
  sell_premium : ℚ
  buy_premium : ℚ
  vvix_adjustment : ℚ
  confidence_adjustment : ℚ
  final_sell : ℚ
  final_buy : ℚ

/-- Output of the position sizer.  The breach message strings interpolate
numeric values in the source; here each breach is recorded by the static
head of its message. -/
structure PositionSizeResult where
  premium_budget : ℚ
  size_multiplier : ℚ
  multiplier_breakdown : SizeMultipliers
  risk_limit_breaches : List String := []
  within_limits : Bool := true

structure RiskLimits where
  max_portfolio_vega : ℚ := 5/1000
  max_portfolio_delta : ℚ := 20/100
  max_portfolio_gamma_t7 : ℚ := 3/1000
  max_single_name_pct : ℚ := 5/100
  max_sector_pct : ℚ := 20/100
  max_correlated_positions : ℕ := 3
  daily_pnl_stop : ℚ := 15/1000
  weekly_pnl_stop : ℚ := 30/1000
  cash_reserve_min : ℚ := 20/100

/-- `SIZE_MULTIPLIER`: regime to (sell_premium_mult, buy_premium_mult).
The dict covers every `VolRegime` value, so the `.get` default
`(0.50, 0.75)` used by callers is unreachable. -/
def SIZE_MULTIPLIER : VolRegime → ℚ × ℚ
  | .VERY_LOW => (1, 1/2)
  | .LOW => (1, 3/4)
  | .NORMAL => (3/4, 1)
  | .ELEVATED => (1/2, 1)
  | .HIGH => (1/4, 1)
  | .EXTREME => (0, 1)
  | .CRISIS => (0, 1)
  | .LIQUIDITY_STRESS => (1/4, 3/4)

/-- `vvix_adjustment`: VVIX-based size adjustment. -/
def vvix_adjustment (vvix : ℚ) : ℚ :=
  if vvix ≤ 18 then 1
  else if vvix ≤ 22 then 85/100
  else if vvix ≤ 28 then 65/100
  else 1/2

/-- `fixed_premium_size`: allocate `budget_pct` of NAV per trade. -/
def fixed_premium_size (nav : ℚ) (budget_pct : ℚ) : ℚ := nav * budget_pct

namespace PositionSizer

/-- `PositionSizer._check_limits`.  Breach strings are the static heads of
the source messages (the numeric interpolations are omitted). -/
def check_limits (limits : RiskLimits) (nav portfolio_vega portfolio_delta
    daily_pnl weekly_pnl : ℚ) : List String :=
  if nav > 0 then
    (if |portfolio_vega / nav| > limits.max_portfolio_vega
     then ["Portfolio vega exceeds limit"] else [])
    ++ (if |portfolio_delta / nav| > limits.max_portfolio_delta
        then ["Portfolio delta exceeds limit"] else [])
    ++ (if daily_pnl < 0 ∧ |daily_pnl / nav| > limits.daily_pnl_stop
        then ["Daily P&L loss exceeds limit"] else [])
    ++ (if weekly_pnl < 0 ∧ |weekly_pnl / nav| > limits.weekly_pnl_stop
        then ["Weekly P&L loss exceeds limit"] else [])
  else []

/-- `PositionSizer.calculate`. -/
def calculate (limits : RiskLimits) (nav : ℚ) (r : RegimeResult)
    (i : MarketInputs) (is_sell_premium : Bool) (budget_pct : ℚ)
    (portfolio_vega portfolio_delta daily_pnl weekly_pnl : ℚ) :
    PositionSizeResult :=
  { premium_budget :=
      py_round 2 (fixed_premium_size nav budget_pct *
        (if is_sell_premium
         then py_round 4 ((SIZE_MULTIPLIER r.regime).1 * vvix_adjustment i.vol.vvix *
                (if r.confidence = .LOW then 1/2 else 1))
         else py_round 4 ((SIZE_MULTIPLIER r.regime).2 * vvix_adjustment i.vol.vvix *
                (if r.confidence = .LOW then 1/2 else 1)))),
    size_multiplier :=
      if is_sell_premium
      then py_round 4 ((SIZE_MULTIPLIER r.regime).1 * vvix_adjustment i.vol.vvix *
             (if r.confidence = .LOW then 1/2 else 1))
      else py_round 4 ((SIZE_MULTIPLIER r.regime).2 * vvix_adjustment i.vol.vvix *
             (if r.confidence = .LOW then 1/2 else 1)),
    multiplier_breakdown :=
      { sell_premium := (SIZE_MULTIPLIER r.regime).1,
        buy_premium := (SIZE_MULTIPLIER r.regime).2,
        vvix_adjustment := vvix_adjustment i.vol.vvix,
        confidence_adjustment := if r.confidence = .LOW then 1/2 else 1,
        final_sell :=
          py_round 4 ((SIZE_MULTIPLIER r.regime).1 * vvix_adjustment i.vol.vvix *
            (if r.confidence = .LOW then 1/2 else 1)),
        final_buy :=
          py_round 4 ((SIZE_MULTIPLIER r.regime).2 * vvix_adjustment i.vol.vvix *
            (if r.confidence = .LOW then 1/2 else 1)) },
    risk_limit_breaches :=
      check_limits limits nav portfolio_vega portfolio_delta daily_pnl weekly_pnl,
    within_limits :=
      check_limits limits nav portfolio_vega portfolio_delta daily_pnl weekly_pnl = [] }

end PositionSizer

-- ── Strategy selector (src/mcp_server/services/engine/selector.py) ──────

/-- `_DELTA_ADJUSTMENTS.get(regime_name, 1.0)`: delta adjustment factor by
regime name, defaulting to 1. -/
def delta_adjustment (regime_name : String) : ℚ :=
  if regime_name = "VERY_LOW" then 12/10
  else if regime_name = "LOW" then 11/10
  else if regime_name = "NORMAL" then 1
  else if regime_name = "ELEVATED" then 8/10
  else if regime_name = "HIGH" then 6/10
  else if regime_name = "CRISIS" then 5/10
  else if regime_name = "EXTREME" then 5/10
  else if regime_name = "LIQUIDITY_STRESS" then 7/10
  else 1

/-- `_adjust_delta`: regime-adjusted delta selection. -/
def adjust_delta (base_delta : ℤ) (regime_name : String) : ℤ :=
  max 1 (py_round_int (base_delta * delta_adjustment regime_name))

namespace StrategySelector

/-- GATE 1 (IV rank filter), emitted only for SHORT_PREMIUM templates. -/
def gate1 (strategy : StrategyTemplate) (i : MarketInputs) : List GateCheckResult :=
  if strategy.family = .SHORT_PREMIUM then
    [{ gate_name := "G1_iv_rank", passed := decide (i.vol.vix_percentile_1y ≥ 25) }]
  else []

/-- The `blocked` flag computed inside GATE 2. -/
def gate2_blocked (r : RegimeResult) (i : MarketInputs) : Bool :=
  decide ((r.event_type.value = "FOMC" ∨ r.event_type.value = "CPI"
            ∨ r.event_type.value = "NFP")
          ∧ min i.events.days_to_fomc (min i.events.days_to_cpi i.events.days_to_nfp) ≤ 10)
  || decide (r.event_type.value = "EARNINGS" ∧ i.events.days_to_earnings ≤ 5)

/-- GATE 2 (event avoidance), emitted when the template blocks events and
the regime is in an event window. -/
def gate2 (strategy : StrategyTemplate) (r : RegimeResult) (i : MarketInputs) :
    List GateCheckResult :=
  if strategy.event_block ∧ r.event_active then
    [{ gate_name := "G2_event_avoidance", passed := ! gate2_blocked r i }]
  else []

/-- GATE 3 (liquidity), always emitted. -/
def gate3 (i : MarketInputs) : GateCheckResult :=
  { gate_name := "G3_liquidity", passed := decide (i.liquidity.spx_bid_ask ≤ 30/100) }

/-- GATE 4 (theta/gamma placeholder), emitted for SHORT_PREMIUM, always passes. -/
def gate4 (strategy : StrategyTemplate) : List GateCheckResult :=
  if strategy.family = .SHORT_PREMIUM then
    [{ gate_name := "G4_theta_gamma", passed := true }]
  else []

/-- GATE 5 (regime compatibility), always emitted. -/
def gate5 (strategy : StrategyTemplate) (r : RegimeResult) : GateCheckResult :=
  { gate_name := "G5_regime_compat",
    passed :=
      if strategy.regime_allowed.contains "ALL" then
        ! strategy.regime_excluded.contains r.regime.value
      else
        strategy.regime_allowed.contains r.regime.value
          && ! strategy.regime_excluded.contains r.regime.value }

/-- GATE 6 (VVIX stability), emitted when the regime is vol-unstable and
the template is SHORT_PREMIUM. -/
def gate6 (strategy : StrategyTemplate) (r : RegimeResult) : List GateCheckResult :=
  if r.vol_unstable ∧ strategy.family = .SHORT_PREMIUM then
    [{ gate_name := "G6_vvix_stability", passed := decide (2 ≤ strategy.legs) }]
  else []

/-- GATE 7 (strategy-specific IV rank and VIX constraints). -/
def gate7 (strategy : StrategyTemplate) (i : MarketInputs) : List GateCheckResult :=
  (match strategy.iv_rank_min with
   | some m =>
     [{ gate_name := "G7_iv_rank_min", passed := decide (i.vol.vix_percentile_1y ≥ (m : ℚ)) }]
   | none => [])
  ++ (match strategy.iv_rank_max with
      | some m =>
        [{ gate_name := "G7_iv_rank_max", passed := decide (i.vol.vix_percentile_1y ≤ (m : ℚ)) }]
      | none => [])
  ++ (match strategy.vix_max with
      | some m =>
        [{ gate_name := "G7_vix_max", passed := decide (i.vol.vix ≤ m) }]
      | none => [])

/-- `StrategySelector._check_gates`: the seven entry gates, in source order. -/
def check_gates (strategy : StrategyTemplate) (r : RegimeResult) (i : MarketInputs) :
    List GateCheckResult :=
  gate1 strategy i ++ gate2 strategy r i ++ [gate3 i] ++ gate4 strategy
    ++ [gate5 strategy r] ++ gate6 strategy r ++ gate7 strategy i

/-- `StrategySelector._matches_objective`: unknown objectives fall back to
the `all` bucket, matching everything. -/
def matches_objective (strategy : StrategyTemplate) (objective : String) : Bool :=
  if objective = "income" then decide (strategy.family = .SHORT_PREMIUM)
  else if objective = "directional" then
    decide (strategy.objective = .DIRECTIONAL_BULLISH
            ∨ strategy.objective = .DIRECTIONAL_BEARISH
            ∨ strategy.objective = .SPOT_RECOVERY)
  else if objective = "hedging" then decide (strategy.family = .HEDGING)
  else if objective = "event" then strategy.event_required
  else if objective = "relative_value" then decide (strategy.family = .RELATIVE_VALUE)
  else if objective = "tail" then decide (strategy.family = .TAIL_TRADING)
  else true

/-- DIMENSION 1 of `_score`: edge (25% weight). -/
def score_edge (strategy : StrategyTemplate) (i : MarketInputs) : ℚ :=
  if strategy.family = .SHORT_PREMIUM then
    min (i.vol.vix_percentile_1y / 10 + min (i.vol.iv_rv_spread / 1) 3) 10
  else
    max (10 - i.vol.vix_percentile_1y / 10) 0

/-- DIMENSION 2 of `_score`: carry vs convexity fit (20% weight). -/
def score_carry_fit (strategy : StrategyTemplate) (r : RegimeResult)
    (i : MarketInputs) : ℚ :=
  if strategy.objective = .INCOME ∨ strategy.objective = .CARRY_WITH_PROTECTION then
    if r.regime = .ELEVATED ∨ r.regime = .HIGH then 6 else 8
  else if strategy.objective = .TAIL_HEDGE ∨ strategy.objective = .SYSTEMATIC_TAIL
          ∨ strategy.objective = .EVENT_VOL then
    if i.vol.vix_percentile_1y < 30 then 8 else 5
  else 5

/-- DIMENSION 3 of `_score`: tail risk exposure (20% weight, 10 = least risk). -/
def score_tail (strategy : StrategyTemplate) (r : RegimeResult) : ℚ :=
  if 4 ≤ strategy.legs then 9
  else if 2 ≤ strategy.legs then 7
  else if strategy.legs = 1 then
    if strategy.family = .SHORT_PREMIUM then
      if r.regime = .ELEVATED then 2 else 3
    else 8
  else 5

/-- DIMENSION 4 of `_score`: robustness / win rate (15% weight).  Python
`or`-defaults: a missing or zero `win_rate` becomes 0.55, a missing or
zero `sharpe_hist` becomes 0.50. -/
def score_robust (strategy : StrategyTemplate) : ℚ :=
  min ((or_default strategy.win_rate (55/100) * 10) * (6/10)
        + (or_default strategy.sharpe_hist (1/2) * 5) * (4/10)) 10

/-- DIMENSION 5 of `_score`: liquidity (10% weight). -/
def score_liquidity (i : MarketInputs) : ℚ :=
  if i.liquidity.spx_bid_ask * 100 < 5 then 10
  else if i.liquidity.spx_bid_ask * 100 < 10 then 8
  else if i.liquidity.spx_bid_ask * 100 < 20 then 5
  else if i.liquidity.spx_bid_ask * 100 < 30 then 3
  else 0

/-- DIMENSION 6 of `_score`: complexity penalty (10% weight, 10 = simplest). -/
def score_complexity (strategy : StrategyTemplate) : ℚ :=
  if strategy.legs = 1 then 10
  else if strategy.legs = 2 then 8
  else if strategy.legs = 3 then 5
  else 3

/-- The unrounded weighted total of `_score`. -/
def score_total_raw (strategy : StrategyTemplate) (r : RegimeResult)
    (i : MarketInputs) : ℚ :=
  (25/100) * score_edge strategy i
  + (20/100) * score_carry_fit strategy r i
  + (20/100) * score_tail strategy r
  + (15/100) * score_robust strategy
  + (10/100) * score_liquidity i
  + (10/100) * score_complexity strategy

/-- `StrategySelector._score`: the six-dimension scoring model; every
stored field is rounded to 2 decimals. -/
def score (strategy : StrategyTemplate) (r : RegimeResult) (i : MarketInputs) :
    StrategyScore :=
  { total := py_round 2 (score_total_raw strategy r i),
    edge := py_round 2 (score_edge strategy i),
    carry_fit := py_round 2 (score_carry_fit strategy r i),
    tail_risk := py_round 2 (score_tail strategy r),
    robustness := py_round 2 (score_robust strategy),
    liquidity := py_round 2 (score_liquidity i),
    complexity := py_round 2 (score_complexity strategy) }

/-- `nearest event days` of `_parameterize`: minimum of the four calendar
distances. -/
def nearest_event_days (ev : EventCalendarData) : ℤ :=
  min (min ev.days_to_fomc ev.days_to_cpi) (min ev.days_to_nfp ev.days_to_earnings)

/-- The DTE adjustment of `_parameterize`. -/
def param_dte (strategy : StrategyTemplate) (r : RegimeResult) (i : MarketInputs) : ℤ :=
  match strategy.base_dte with
  | .inr _ => 37
  | .inl n =>
    if r.event_active ∧ ¬ strategy.event_required then
      max (nearest_event_days i.events + 10) n
    else n

/-- The unrounded size multiplier of `_parameterize`: regime sell-or-buy
multiplier times VVIX adjustment times the low-confidence haircut. -/
def param_mult_raw (strategy : StrategyTemplate) (r : RegimeResult)
    (i : MarketInputs) : ℚ :=
  (if strategy.family = .SHORT_PREMIUM
   then (SIZE_MULTIPLIER r.regime).1 else (SIZE_MULTIPLIER r.regime).2)
  * vvix_adjustment i.vol.vvix
  * (if r.confidence = .LOW then 1/2 else 1)

/-- `StrategySelector._parameterize`. -/
def parameterize (strategy : StrategyTemplate) (r : RegimeResult)
    (i : MarketInputs) : StrategyParams :=
  { delta :=
      match strategy.base_delta with
      | .inl n => some (adjust_delta n r.regime.value)
      | .inr _ => none,
    deltas :=
      match strategy.base_delta with
      | .inr d => some (d.map fun leg => (leg.1, adjust_delta leg.2 r.regime.value))
      | .inl _ => none,
    dte := param_dte strategy r i,
    size_multiplier := py_round 2 (param_mult_raw strategy r i),
    profit_target := strategy.profit_target,
    stop_loss := strategy.stop_loss,
    roll_dte := strategy.roll_dte }

/-- The candidate list built by the template loop of `select`: templates
whose gates all pass and which match the objective, scored and
parameterized, in catalog order. -/
def select_candidates (r : RegimeResult) (i : MarketInputs) (objective : String) :
    List StrategyCandidate :=
  StrategyUniverse.TEMPLATES.filterMap fun p =>
    if (check_gates p.2 r i).all (fun g => g.passed) then
      if matches_objective p.2 objective then
        some { name := p.1, template := p.2, scores := score p.2 r i,
               params := parameterize p.2 r i, gates := check_gates p.2 r i }
      else none
    else none

/-- The comparison used for `candidates.sort(key=..., reverse=True)`:
descending, stable on equal totals. -/
def candidate_le (a b : StrategyCandidate) : Bool :=
  decide (b.scores.total ≤ a.scores.total)

/-- The ranking and fallback logic at the end of `select`, applied to the
sorted top-3 list. -/
def select_top (r : RegimeResult) (top : List StrategyCandidate) :
    StrategyRecommendation :=
  match top with
  | [] =>
    { recommendation := .NO_TRADE, regime := r,
      note := "No strategy passes all filters in current regime" }
  | c :: _ =>
    if c.scores.total < 5 then
      { recommendation := .LOW_CONVICTION, strategies := top, regime := r,
        note := "Reduce size by 50% or wait for better setup" }
    else if r.confidence = .LOW then
      if (top.filter fun c => decide (2 ≤ c.template.legs)).isEmpty then
        { recommendation := .REGIME_UNCERTAIN, regime := r,
          note := "Mixed signals; no defined-risk strategies available. WAIT." }
      else
        { recommendation := .TRADE_CAUTIOUS,
          strategies := top.filter fun c => decide (2 ≤ c.template.legs),
          regime := r,
          note := "Low confidence regime - defined risk only, 50% size" }
    else
      { recommendation := .TRADE, strategies := top, regime := r }

/-- `StrategySelector.select`: gates, objective filter, score,
parameterize, rank, fallbacks.  `nav` is accepted and unused, as in the
source. -/
def select (r : RegimeResult) (i : MarketInputs) (objective : String)
    (nav : ℚ) : StrategyRecommendation :=
  select_top r (((select_candidates r i objective).mergeSort candidate_le).take 3)

end StrategySelector

-- ── Rule evaluation (adjustments.py, exits.py) ──────────────────────────

/-- Result of evaluating a rule against a position.  The free-text
`details` field (which interpolates numeric values in the source) is
omitted: no checked property mentions it. -/
structure RuleEvaluation where
  rule_id : String
  rule_name : String
  triggered : Bool
  priority : RulePriority
  action : String := ""

/-- The position dict consumed by the rule engines, §4.4 of the spec: an
open mapping read through `position.get(key, default)`.  Every field is
optional; `none` models an absent key. -/
structure Position where
  dte : Option ℤ := none
  is_0dte : Option Bool := none
  current_delta : Option ℚ := none
  initial_delta : Option ℚ := none
  strategy : Option String := none
  tested_breach_std : Option ℚ := none
  portfolio_delta_pct : Option ℚ := none
  is_covered_call : Option Bool := none
  is_dispersion : Option Bool := none
  family : Option String := none
  unrealized_pnl : Option ℚ := none
  max_profit : Option ℚ := none
  premium_paid : Option ℚ := none
  premium_received : Option ℚ := none
  regime_allowed : Option (List String) := none
  daily_pnl : Option ℚ := none

/-- A position dict with every field absent. -/
def empty_position : Position := {}

namespace AdjustmentEngine

/-- A1 Time Roll: `position.get("dte", 999)` in (7, 21]. -/
def ruleA1 (pos : Position) : List RuleEvaluation :=
  if pos.dte.getD 999 ≤ 21 ∧ pos.dte.getD 999 > 7 then
    [{ rule_id := "A1", rule_name := "Time Roll", triggered := true,
       priority := .HIGH,
       action := "Roll to next month (same delta) or close" }]
  else []

/-- A2 Time Close: DTE ≤ 7 and not 0DTE. -/
def ruleA2 (pos : Position) : List RuleEvaluation :=
  if pos.dte.getD 999 ≤ 7 ∧ ¬ pos.is_0dte.getD false then
    [{ rule_id := "A2", rule_name := "Time Close", triggered := true,
       priority := .CRITICAL,
       action := "Close position regardless of P&L" }]
  else []

/-- A3 Delta Breach: |current_delta| > 30 from |initial_delta| ≤ 20
(current defaults to 0, initial defaults to 15). -/
def ruleA3 (pos : Position) : List RuleEvaluation :=
  if |pos.current_delta.getD 0| > 30 ∧ |pos.initial_delta.getD 15| ≤ 20 then
    [{ rule_id := "A3", rule_name := "Delta Breach", triggered := true,
       priority := .HIGH,
       action := "Roll strike further OTM and out in time" }]
  else []

/-- A4 Strangle Test: strangle or condor with tested side breached by
more than one standard deviation. -/
def ruleA4 (pos : Position) : List RuleEvaluation :=
  if (pos.strategy = some "short_strangle" ∨ pos.strategy = some "iron_condor")
      ∧ pos.tested_breach_std.getD 0 > 1 then
    [{ rule_id := "A4", rule_name := "Strangle Test", triggered := true,
       priority := .HIGH,
       action := "Close tested side; leave untested as standalone if profitable. Do NOT double down." }]
  else []

/-- A5 Delta Hedge: |portfolio_delta_pct| > 0.15. -/
def ruleA5 (pos : Position) : List RuleEvaluation :=
  if |pos.portfolio_delta_pct.getD 0| > 15/100 then
    [{ rule_id := "A5", rule_name := "Delta Hedge", triggered := true,
       priority := .HIGH,
       action := "Add delta hedges via futures or ATM options" }]
  else []

/-- The fractional 5-day VIX change used by A6: the denominator is clamped
at 1, and the whole expression is 0 when VIX ≤ 0. -/
def vix_5d_pct (v : VolData) : ℚ :=
  if v.vix > 0 then v.vix_5d_change / max (v.vix - v.vix_5d_change) 1 else 0

/-- The action string of A6, upgraded when VIX > 35. -/
def ruleA6_action (v : VolData) : String :=
  if v.vix > 35 then "CRITICAL: VIX > 35 - close ALL naked short vol immediately"
  else "Reduce all short vega by 50%. If VIX > 35: close ALL naked short vol."

/-- A6 Vol Spike: VIX 1d change > 5 or fractional 5d change > 30%. -/
def ruleA6 (i : MarketInputs) : List RuleEvaluation :=
  if i.vol.vix_1d_change > 5 ∨ vix_5d_pct i.vol > 30/100 then
    [{ rule_id := "A6", rule_name := "Vol Spike", triggered := true,
       priority := .CRITICAL, action := ruleA6_action i.vol }]
  else []

/-- A7 Earnings Dodge: covered call with earnings within 5 days. -/
def ruleA7 (pos : Position) (i : MarketInputs) : List RuleEvaluation :=
  if pos.is_covered_call.getD false ∧ i.events.days_to_earnings ≤ 5 then
    [{ rule_id := "A7", rule_name := "Earnings Dodge", triggered := true,
       priority := .HIGH,
       action := "Roll or close calls before earnings" }]
  else []

/-- A8 Regime Change: previous regime present and different. -/
def ruleA8 (r : RegimeResult) (previous : Option RegimeResult) : List RuleEvaluation :=
  match previous with
  | some p =>
    if p.regime ≠ r.regime then
      [{ rule_id := "A8", rule_name := "Regime Change", triggered := true,
         priority := .CRITICAL,
         action := "Review ALL positions. Close any not appropriate for new regime." }]
    else []
  | none => []

/-- A9 Correlation Spike: correlation percentile above 80 on a dispersion
position. -/
def ruleA9 (pos : Position) (i : MarketInputs) : List RuleEvaluation :=
  if i.correlation.corr_pctile_1y > 80 ∧ pos.is_dispersion.getD false then
    [{ rule_id := "A9", rule_name := "Correlation Spike", triggered := true,
       priority := .HIGH,
       action := "Close all dispersion trades. Review short vol positions for systemic risk." }]
  else []

/-- `AdjustmentEngine.evaluate`: rules A1-A9 in source order; only
triggered rules are emitted. -/
def evaluate (pos : Position) (r : RegimeResult) (i : MarketInputs)
    (previous : Option RegimeResult) : List RuleEvaluation :=
  ruleA1 pos ++ ruleA2 pos ++ ruleA3 pos ++ ruleA4 pos ++ ruleA5 pos
    ++ ruleA6 i ++ ruleA7 pos i ++ ruleA8 r previous ++ ruleA9 pos i

end AdjustmentEngine

namespace ExitEngine

/-- X1 Credit Profit Target. -/
def ruleX1 (pos : Position) : List RuleEvaluation :=
  if pos.family.getD "" = "short_premium"
      ∧ pos.max_profit.getD 0 > 0
      ∧ pos.unrealized_pnl.getD 0 ≥ pos.max_profit.getD 0 * (1/2) then
    [{ rule_id := "X1", rule_name := "Credit Profit Target", triggered := true,
       priority := .HIGH,
       action := "Close. Set limit order at entry." }]
  else []

/-- X2 Debit Profit Target. -/
def ruleX2 (pos : Position) : List RuleEvaluation :=
  if pos.family.getD "" = "long_premium"
      ∧ pos.premium_paid.getD 0 > 0
      ∧ pos.unrealized_pnl.getD 0 ≥ pos.premium_paid.getD 0 then
    [{ rule_id := "X2", rule_name := "Debit Profit Target", triggered := true,
       priority := .HIGH,
       action := "Close (2:1 R/R achieved). For event trades: close within 24hrs post-event." }]
  else []

/-- X3 Credit Stop Loss. -/
def ruleX3 (pos : Position) : List RuleEvaluation :=
  if pos.family.getD "" = "short_premium"
      ∧ pos.premium_received.getD 0 > 0
      ∧ pos.unrealized_pnl.getD 0 < 0
      ∧ |pos.unrealized_pnl.getD 0| ≥ pos.premium_received.getD 0 * 2 then
    [{ rule_id := "X3", rule_name := "Credit Stop Loss", triggered := true,
       priority := .CRITICAL,
       action := "Close. Expected recovery is negative beyond this point." }]
  else []

/-- X4 Debit Stop Loss. -/
def ruleX4 (pos : Position) : List RuleEvaluation :=
  if pos.family.getD "" = "long_premium"
      ∧ pos.premium_paid.getD 0 > 0
      ∧ pos.unrealized_pnl.getD 0 < 0
      ∧ |pos.unrealized_pnl.getD 0| ≥ pos.premium_paid.getD 0 * (1/2) then
    [{ rule_id := "X4", rule_name := "Debit Stop Loss", triggered := true,
       priority := .HIGH,
       action := "Close. Re-evaluate thesis before re-entering." }]
  else []

/-- X5 Time Stop. -/
def ruleX5 (pos : Position) : List RuleEvaluation :=
  if pos.dte.getD 999 ≤ 7 ∧ ¬ pos.is_0dte.getD false then
    [{ rule_id := "X5", rule_name := "Time Stop", triggered := true,
       priority := .CRITICAL,
       action := "Close. Gamma acceleration makes position fundamentally different." }]
  else []

/-- X6 Regime Exit: regime changed and the new regime is not allowed for
the position (an empty `regime_allowed` list is falsy and never fires). -/
def ruleX6 (pos : Position) (r : RegimeResult) (previous : Option RegimeResult) :
    List RuleEvaluation :=
  match previous with
  | some p =>
    if p.regime ≠ r.regime then
      if pos.regime_allowed.getD [] ≠ []
          ∧ ¬ (pos.regime_allowed.getD []).contains r.regime.value
          ∧ ¬ (pos.regime_allowed.getD []).contains "ALL" then
        [{ rule_id := "X6", rule_name := "Regime Exit", triggered := true,
           priority := .CRITICAL,
           action := "Close ALL positions not appropriate for new regime immediately." }]
      else []
    else []
  | none => []

/-- X7 Daily P&L Stop. -/
def ruleX7 (pos : Position) (nav : ℚ) : List RuleEvaluation :=
  if nav > 0 ∧ pos.daily_pnl.getD 0 < 0 ∧ |pos.daily_pnl.getD 0 / nav| > 15/1000 then
    [{ rule_id := "X7", rule_name := "Daily P&L Stop", triggered := true,
       priority := .CRITICAL,
       action := "Reduce exposure by 50%. No new trades today." }]
  else []

/-- `ExitEngine.evaluate`: rules X1-X7 in source order; only triggered
rules are emitted. -/
def evaluate (pos : Position) (r : RegimeResult) (i : MarketInputs)
    (previous : Option RegimeResult) (nav : ℚ) : List RuleEvaluation :=
  ruleX1 pos ++ ruleX2 pos ++ ruleX3 pos ++ ruleX4 pos ++ ruleX5 pos
    ++ ruleX6 pos r previous ++ ruleX7 pos nav

end ExitEngine

-- ── TTL cache (src/api/cache.py) ────────────────────────────────────────

namespace TTLCache

/-- The `_store` dict: key to (value, expire_at), modelled as a map.
`now` stands for `time.monotonic()` at the moment of the call; a call is
modelled as a function from the store to a result and the updated store.
The coalescing lock is irrelevant to the sequential contract modelled
here. -/
def Store (α : Type) : Type := String → Option (α × ℚ)

/-- The store with no entries. -/
def empty {α : Type} : Store α := fun _ => none

/-- The fetch-and-populate tail of `get_or_fetch`: a successful fetch
stores `(value, now + ttl)`; a raising fetch changes nothing. -/
def fetch_and_store {α ε : Type} (s : Store α) (now : ℚ) (key : String)
    (fetch : Except ε α) (ttl_seconds : ℚ) : Except ε α × Store α :=
  match fetch with
  | .ok v => (.ok v, fun k => if k = key then some (v, now + ttl_seconds) else s k)
  | .error e => (.error e, s)

/-- `TTLCache.get_or_fetch`: return a fresh cached value, otherwise run
the fetch (the double-checked lock sequence collapses to one check in the
sequential model). -/
def get_or_fetch {α ε : Type} (s : Store α) (now : ℚ) (key : String)
    (fetch : Except ε α) (ttl_seconds : ℚ) : Except ε α × Store α :=
  match s key with
  | some (v, expire_at) =>
    if now < expire_at then (.ok v, s)
    else fetch_and_store s now key fetch ttl_seconds
  | none => fetch_and_store s now key fetch ttl_seconds

/-- `TTLCache.get`: a fresh entry is returned; an expired entry is
deleted and behaves as a miss. -/
def get {α : Type} (s : Store α) (now : ℚ) (key : String) :
    Option α × Store α :=
  match s key with
  | some (v, expire_at) =>
    if now < expire_at then (some v, s)
    else (none, fun k => if k = key then none else s k)
  | none => (none, s)

/-- `TTLCache.set`. -/
def set {α : Type} (s : Store α) (now : ℚ) (key : String) (value : α)
    (ttl_seconds : ℚ) : Store α :=
  fun k => if k = key then some (value, now + ttl_seconds) else s k

end TTLCache

-- ── Concrete instances used by witnesses and counterexamples ────────────

/-- A neutral spot block (required fields only). -/
def flat_spot : SpotData :=
  { spx_level := 5000, spx_sma_50 := 5000, spx_sma_200 := 5000 }

/-- Spec scenario 1 (crisis trigger), with an event inside its window and
VVIX above 22: VIX 38, 1-day change 6, HY-OAS 20d change 60, inverted 3M-1M
term structure, bid-ask widening 2.3, FOMC in 2 days, VVIX 30. -/
def example_crisis_inputs : MarketInputs :=
  { spot := flat_spot,
    vol := { vix := 38, vix_1d_change := 6, vvix := 30 },
    term_structure := { ts_1m_3m := -1/2 },
    events := { days_to_fomc := 2 },
    credit := { hy_oas_20d_change := 60 },
    liquidity := { bid_ask_widening := 23/10 } }

/-- A NORMAL-regime result with default (MEDIUM) confidence. -/
def regime_normal_medium : RegimeResult := { regime := .NORMAL }

/-- Inputs with VVIX 20, so the VVIX size adjustment is 0.85. -/
def inputs_vvix20 : MarketInputs :=
  { spot := flat_spot, vol := { vix := 16, vvix := 20 } }

/-- Inputs with VIX percentile 50 and a negative IV-RV spread of -2. -/
def score_cex_inputs : MarketInputs :=
  { spot := flat_spot,
    vol := { vix := 16, vix_percentile_1y := 50, iv_rv_spread := -2 } }

/-- Inputs with VIX percentile 50 and IV-RV spread +2. -/
def score_pos_inputs : MarketInputs :=
  { spot := flat_spot,
    vol := { vix := 16, vix_percentile_1y := 50, iv_rv_spread := 2 } }

/-- Inputs with VIX 0.9 and a 5-day VIX change of 0.25: the change over
the prior level 0.65 is 5/13, above 30%, but the source divides by
`max(0.65, 1) = 1`. -/
def a6_cex_inputs : MarketInputs :=
  { spot := flat_spot, vol := { vix := 9/10, vix_5d_change := 1/4 } }

/-- Spec scenario 6 (vol spike): VIX 40, 1-day change 6. -/
def a6_spike_inputs : MarketInputs :=
  { spot := flat_spot, vol := { vix := 40, vix_1d_change := 6 } }

/-- An empty rational-valued cache store. -/
def empty_qstore : TTLCache.Store ℚ := TTLCache.empty

-- ════════════════════════════════════════════════════════════════════════
-- Theorems
-- ════════════════════════════════════════════════════════════════════════

-- ── Rounding helpers ────────────────────────────────────────────────────

theorem py_round_int_le {x : ℚ} {m : ℤ} (h : x ≤ (m : ℚ)) : py_round_int x ≤ m := by
  have hf : ⌊x⌋ ≤ m := by
    have := Int.floor_mono h
    simpa using this
  unfold py_round_int
  split_ifs with h1 h2 h3
  · exact hf
  · have hlt : (⌊x⌋ : ℚ) < x := by linarith
    have : (⌊x⌋ : ℚ) < (m : ℚ) := lt_of_lt_of_le hlt h
    have : ⌊x⌋ < m := by exact_mod_cast this
    omega
  · exact hf
  · have hx : x - ⌊x⌋ = 1/2 := by linarith
    have hlt : (⌊x⌋ : ℚ) < x := by linarith
    have : (⌊x⌋ : ℚ) < (m : ℚ) := lt_of_lt_of_le hlt h
    have : ⌊x⌋ < m := by exact_mod_cast this
    omega

theorem le_py_round_int {x : ℚ} {m : ℤ} (h : (m : ℚ) ≤ x) : m ≤ py_round_int x := by
  have hf : m ≤ ⌊x⌋ := Int.le_floor.mpr h
  unfold py_round_int
  split_ifs <;> omega

theorem abs_py_round_int_sub (y : ℚ) : |(py_round_int y : ℚ) - y| ≤ 1/2 := by
  have h1 : (⌊y⌋ : ℚ) ≤ y := Int.floor_le _
  have h2 : y < ⌊y⌋ + 1 := Int.lt_floor_add_one _
  unfold py_round_int
  rw [abs_le]
  split_ifs with h h' h'' <;> constructor <;> push_cast <;> linarith

theorem abs_py_round_sub (n : ℕ) (x : ℚ) :
    |py_round n x - x| ≤ 1 / (2 * 10 ^ n) := by
  have hpow : (0 : ℚ) < 10 ^ n := by positivity
  have key := abs_py_round_int_sub (x * 10 ^ n)
  have hrw : py_round n x - x = ((py_round_int (x * 10 ^ n) : ℚ) - x * 10 ^ n) / 10 ^ n := by
    unfold py_round
    field_simp
    ring
  rw [hrw, abs_div, abs_of_pos hpow, div_le_div_iff₀ hpow (by positivity)]
  nlinarith [key]

theorem py_round2_bounds {x : ℚ} (h0 : 0 ≤ x) (h1 : x ≤ 10) :
    0 ≤ py_round 2 x ∧ py_round 2 x ≤ 10 := by
  have hl : (0 : ℤ) ≤ py_round_int (x * 10 ^ 2) :=
    le_py_round_int (by push_cast; nlinarith)
  have hu : py_round_int (x * 10 ^ 2) ≤ (1000 : ℤ) :=
    py_round_int_le (by push_cast; nlinarith)
  unfold py_round
  constructor
  · apply div_nonneg _ (by positivity)
    exact_mod_cast hl
  · rw [div_le_iff₀ (by positivity)]
    have : ((py_round_int (x * 10 ^ 2) : ℚ)) ≤ 1000 := by exact_mod_cast hu
    linarith

-- ── Regime classifier shape lemmas ──────────────────────────────────────

theorem vol_level_ne (v : ℚ) :
    RegimeClassifier.vol_level v ≠ VolRegime.CRISIS
    ∧ RegimeClassifier.vol_level v ≠ VolRegime.LIQUIDITY_STRESS := by
  unfold RegimeClassifier.vol_level
  split_ifs <;> simp

theorem classify_crisis_eq (i : MarketInputs)
    (h : 3 ≤ RegimeClassifier.crisis_signals i) :
    RegimeClassifier.classify i =
      { regime := .CRISIS,
        trend := RegimeClassifier.classify_trend i.spot,
        confidence :=
          if 5 ≤ RegimeClassifier.crisis_signals i then .HIGH else .MEDIUM,
        confirming_signals := RegimeClassifier.crisis_signals i,
        actions := RegimeClassifier.crisis_actions } := by
  unfold RegimeClassifier.classify
  rw [if_pos h]

theorem classify_liq_eq (i : MarketInputs)
    (h1 : ¬ 3 ≤ RegimeClassifier.crisis_signals i)
    (h2 : 2 ≤ RegimeClassifier.liquidity_stress i) :
    RegimeClassifier.classify i =
      { regime := .LIQUIDITY_STRESS,
        trend := RegimeClassifier.classify_trend i.spot,
        confidence := .MEDIUM,
        confirming_signals := RegimeClassifier.liquidity_stress i,
        actions := RegimeClassifier.liquidity_actions } := by
  unfold RegimeClassifier.classify
  rw [if_neg h1, if_pos h2]

theorem classify_normal_eq (i : MarketInputs)
    (h1 : ¬ 3 ≤ RegimeClassifier.crisis_signals i)
    (h2 : ¬ 2 ≤ RegimeClassifier.liquidity_stress i) :
    RegimeClassifier.classify i =
      { regime := RegimeClassifier.vol_level i.vol.vix,
        trend := RegimeClassifier.classify_trend i.spot,
        event_active := RegimeClassifier.event_active i.events,
        event_type := RegimeClassifier.event_type_of i.events,
        multi_event := 2 ≤ i.events.events_next_5d,
        vol_unstable := i.vol.vvix > 22,
        confidence :=
          if 3 ≤ RegimeClassifier.score_confidence (RegimeClassifier.vol_level i.vol.vix)
                  i.vol i.skew i.term_structure i.credit
          then .HIGH
          else if 2 ≤ RegimeClassifier.score_confidence (RegimeClassifier.vol_level i.vol.vix)
                  i.vol i.skew i.term_structure i.credit
          then .MEDIUM
          else .LOW,
        confirming_signals :=
          RegimeClassifier.score_confidence (RegimeClassifier.vol_level i.vol.vix)
            i.vol i.skew i.term_structure i.credit,
        actions :=
          RegimeClassifier.build_actions (RegimeClassifier.vol_level i.vol.vix)
            (RegimeClassifier.classify_trend i.spot)
            (RegimeClassifier.event_active i.events) (i.vol.vvix > 22) } := by
  unfold RegimeClassifier.classify
  rw [if_neg h1, if_neg h2]

-- ── C1 ──────────────────────────────────────────────────────────────────

/-- C1: the crisis score is the stated sum of six indicators; the
classifier returns level CRISIS exactly when that sum is at least 3, with
confidence HIGH when it is at least 5 and MEDIUM otherwise; on that path
the trend is computed but the event, vol-level and VVIX categories are
never consulted (the result is fully determined by the crisis sum, the
fixed crisis checklist and the trend of the spot block). -/
theorem C1_crisis_classification (i : MarketInputs) :
    RegimeClassifier.crisis_signals i =
      (if i.vol.vix > 30 then 2 else 0)
      + (if i.vol.vix_1d_change > 5 then 2 else 0)
      + (if i.vol.vix > 35 then 1 else 0)
      + (if i.credit.hy_oas_20d_change > 50 then 1 else 0)
      + (if i.term_structure.ts_1m_3m < 0 then 1 else 0)
      + (if i.liquidity.bid_ask_widening > 2 then 1 else 0)
    ∧ ((RegimeClassifier.classify i).regime = VolRegime.CRISIS ↔
        3 ≤ RegimeClassifier.crisis_signals i)
    ∧ (3 ≤ RegimeClassifier.crisis_signals i →
        (RegimeClassifier.classify i).confidence =
          (if 5 ≤ RegimeClassifier.crisis_signals i
           then Confidence.HIGH else Confidence.MEDIUM)
        ∧ (RegimeClassifier.classify i).trend = RegimeClassifier.classify_trend i.spot
        ∧ (RegimeClassifier.classify i).actions = RegimeClassifier.crisis_actions
        ∧ (RegimeClassifier.classify i).confirming_signals =
            RegimeClassifier.crisis_signals i) := by
  refine ⟨rfl, ⟨fun hreg => ?_, fun h => by rw [classify_crisis_eq i h]⟩, fun h => ?_⟩
  · by_contra h
    by_cases h2 : 2 ≤ RegimeClassifier.liquidity_stress i
    · rw [classify_liq_eq i h h2] at hreg
      simp at hreg
    · rw [classify_normal_eq i h h2] at hreg
      exact (vol_level_ne i.vol.vix).1 hreg
  · rw [classify_crisis_eq i h]
    exact ⟨rfl, rfl, rfl, rfl⟩

/-- Witness for C1 at spec scenario 1 (crisis sum 8). -/
theorem C1_crisis_classification_witness :
    (RegimeClassifier.classify example_crisis_inputs).regime = VolRegime.CRISIS
    ∧ (RegimeClassifier.classify example_crisis_inputs).confidence = Confidence.HIGH := by
  have hs : 3 ≤ RegimeClassifier.crisis_signals example_crisis_inputs := by
    norm_num [RegimeClassifier.crisis_signals, example_crisis_inputs]
  have h := C1_crisis_classification example_crisis_inputs
  refine ⟨(h.2.1).mpr hs, ?_⟩
  rw [(h.2.2 hs).1]
  norm_num [RegimeClassifier.crisis_signals, example_crisis_inputs]

-- ── C10 ─────────────────────────────────────────────────────────────────

/-- C10: on the crisis and liquidity-stress early returns the regime
result keeps the constructor defaults `event_active = false`,
`event_type = NONE`, `multi_event = false`, `vol_unstable = false`, no
matter what the event calendar or VVIX fields say; only the trend is
computed from the inputs. -/
theorem C10_early_return_fixed_fields (i : MarketInputs)
    (h : (RegimeClassifier.classify i).regime = VolRegime.CRISIS
        ∨ (RegimeClassifier.classify i).regime = VolRegime.LIQUIDITY_STRESS) :
    (RegimeClassifier.classify i).event_active = false
    ∧ (RegimeClassifier.classify i).event_type = EventType.NONE
    ∧ (RegimeClassifier.classify i).multi_event = false
    ∧ (RegimeClassifier.classify i).vol_unstable = false
    ∧ (RegimeClassifier.classify i).trend = RegimeClassifier.classify_trend i.spot := by
  by_cases h1 : 3 ≤ RegimeClassifier.crisis_signals i
  · rw [classify_crisis_eq i h1]
    exact ⟨rfl, rfl, rfl, rfl, rfl⟩
  by_cases h2 : 2 ≤ RegimeClassifier.liquidity_stress i
  · rw [classify_liq_eq i h1 h2]
    exact ⟨rfl, rfl, rfl, rfl, rfl⟩
  · exfalso
    rw [classify_normal_eq i h1 h2] at h
    rcases h with h | h
    · exact (vol_level_ne i.vol.vix).1 h
    · exact (vol_level_ne i.vol.vix).2 h

/-- Witness for C10: crisis inputs with FOMC in 2 days and VVIX 30 still
return the default event fields. -/
theorem C10_early_return_fixed_fields_witness :
    (RegimeClassifier.classify example_crisis_inputs).event_active = false
    ∧ (RegimeClassifier.classify example_crisis_inputs).event_type = EventType.NONE
    ∧ (RegimeClassifier.classify example_crisis_inputs).vol_unstable = false := by
  have hs : 3 ≤ RegimeClassifier.crisis_signals example_crisis_inputs := by
    norm_num [RegimeClassifier.crisis_signals, example_crisis_inputs]
  have hreg : (RegimeClassifier.classify example_crisis_inputs).regime = VolRegime.CRISIS := by
    rw [classify_crisis_eq example_crisis_inputs hs]
  have h := C10_early_return_fixed_fields example_crisis_inputs (Or.inl hreg)
  exact ⟨h.1, h.2.1, h.2.2.2.1⟩

-- ── C8 ──────────────────────────────────────────────────────────────────

/-- C8: when the entry at `key` is missing or expired (so the fetch path
runs), a raising fetch propagates its error, leaves the store untouched,
and an immediately subsequent `get` at the same instant misses; a
successful fetch on the same path stores the value with
`expire_at = now + ttl`.  (When a fresh entry exists, `get_or_fetch`
returns it and never invokes the fetch.) -/
theorem C8_cache_error_non_persistence {α ε : Type} (s : TTLCache.Store α)
    (now : ℚ) (key : String) (ttl_seconds : ℚ) (e : ε)
    (hmiss : ∀ v expire_at, s key = some (v, expire_at) → ¬ now < expire_at) :
    (TTLCache.get_or_fetch s now key (Except.error e) ttl_seconds).1 = Except.error e
    ∧ (TTLCache.get_or_fetch s now key (Except.error e) ttl_seconds).2 = s
    ∧ (TTLCache.get (TTLCache.get_or_fetch s now key (Except.error e) ttl_seconds).2
         now key).1 = none
    ∧ (∀ v : α, (TTLCache.get_or_fetch s now key (Except.ok v : Except ε α)
         ttl_seconds).2 key = some (v, now + ttl_seconds)) := by
  have hfetch : ∀ f : Except ε α,
      TTLCache.get_or_fetch s now key f ttl_seconds =
        TTLCache.fetch_and_store s now key f ttl_seconds := by
    intro f
    unfold TTLCache.get_or_fetch
    cases hk : s key with
    | none => rfl
    | some p =>
      obtain ⟨v, expire_at⟩ := p
      show (if now < expire_at then (Except.ok v, s)
            else TTLCache.fetch_and_store s now key f ttl_seconds) = _
      rw [if_neg (hmiss v expire_at hk)]
  refine ⟨?_, ?_, ?_, ?_⟩
  · rw [hfetch]; rfl
  · rw [hfetch]; rfl
  · rw [hfetch]
    show (TTLCache.get s now key).1 = none
    unfold TTLCache.get
    cases hk : s key with
    | none => rfl
    | some p =>
      obtain ⟨v, expire_at⟩ := p
      show (if now < expire_at then (some v, s)
            else (none, fun k => if k = key then none else s k)).1 = none
      rw [if_neg (hmiss v expire_at hk)]
  · intro v
    rw [hfetch]
    show (fun k => if k = key then some (v, now + ttl_seconds) else s k) key
      = some (v, now + ttl_seconds)
    simp

/-- Witness for C8 on the empty store: the spec scenario with key q:X. -/
theorem C8_cache_error_non_persistence_witness :
    (TTLCache.get_or_fetch empty_qstore 0 "q:X" (Except.error "boom") 10).1
      = Except.error "boom"
    ∧ (TTLCache.get (TTLCache.get_or_fetch empty_qstore 0 "q:X"
         (Except.error "boom") 10).2 0 "q:X").1 = none := by
  have h := C8_cache_error_non_persistence empty_qstore 0 "q:X" 10 "boom"
    (by intro v expire_at hv; simp [empty_qstore, TTLCache.empty] at hv)
  exact ⟨h.1, h.2.2.1⟩

-- ── C4 ──────────────────────────────────────────────────────────────────

/-- Counterexample to C4 as stated: in a NORMAL regime with MEDIUM
confidence and VVIX 20 the multiplier product is 0.75 x 0.85 x 1 = 0.6375,
whose 4-decimal rounding is 0.6375 itself, but the selector stores the
product rounded to 2 decimals, 0.64. -/
theorem C4_round4_counterexample :
    ¬ ((StrategySelector.parameterize cash_secured_put regime_normal_medium
          inputs_vvix20).size_multiplier
        = py_round 4 ((SIZE_MULTIPLIER regime_normal_medium.regime).1
            * vvix_adjustment inputs_vvix20.vol.vvix
            * (if regime_normal_medium.confidence = Confidence.LOW then 1/2 else 1))) := by
  norm_num +decide [StrategySelector.parameterize, StrategySelector.param_mult_raw,
    SIZE_MULTIPLIER, vvix_adjustment, cash_secured_put, regime_normal_medium,
    inputs_vvix20, py_round, py_round_int]

/-- C4 amended: the sizer rounds `final = regime_side_mult x vvix_adj x
confidence_adj` to 4 decimals for both `final_sell` and `final_buy`, while
the selector stores the same product rounded to 2 (not 4) decimals in
every parameterized candidate. -/
theorem C4_size_multiplier_identity (limits : RiskLimits) (nav : ℚ)
    (r : RegimeResult) (i : MarketInputs) (is_sell_premium : Bool)
    (budget_pct portfolio_vega portfolio_delta daily_pnl weekly_pnl : ℚ) :
    (PositionSizer.calculate limits nav r i is_sell_premium budget_pct
        portfolio_vega portfolio_delta daily_pnl weekly_pnl).multiplier_breakdown.final_sell
      = py_round 4 ((SIZE_MULTIPLIER r.regime).1 * vvix_adjustment i.vol.vvix
          * (if r.confidence = Confidence.LOW then 1/2 else 1))
    ∧ (PositionSizer.calculate limits nav r i is_sell_premium budget_pct
          portfolio_vega portfolio_delta daily_pnl weekly_pnl).multiplier_breakdown.final_buy
        = py_round 4 ((SIZE_MULTIPLIER r.regime).2 * vvix_adjustment i.vol.vvix
            * (if r.confidence = Confidence.LOW then 1/2 else 1))
    ∧ (∀ t : StrategyTemplate,
        (StrategySelector.parameterize t r i).size_multiplier
          = py_round 2 ((if t.family = StrategyFamily.SHORT_PREMIUM
                  then (SIZE_MULTIPLIER r.regime).1 else (SIZE_MULTIPLIER r.regime).2)
              * vvix_adjustment i.vol.vvix
              * (if r.confidence = Confidence.LOW then 1/2 else 1))) :=
  ⟨rfl, rfl, fun _ => rfl⟩

/-- Witness for C4 amended, NORMAL regime with VVIX 20: final_sell is
round4(0.75 x 0.85 x 1). -/
theorem C4_size_multiplier_identity_witness :
    (PositionSizer.calculate {} 100000 regime_normal_medium inputs_vvix20 true
        (5/1000) 0 0 0 0).multiplier_breakdown.final_sell
      = py_round 4 ((SIZE_MULTIPLIER regime_normal_medium.regime).1
          * vvix_adjustment inputs_vvix20.vol.vvix
          * (if regime_normal_medium.confidence = Confidence.LOW then 1/2 else 1)) :=
  (C4_size_multiplier_identity {} 100000 regime_normal_medium inputs_vvix20 true
    (5/1000) 0 0 0 0).1

-- ── C6 ──────────────────────────────────────────────────────────────────

/-- C6: for an integer `base_dte` the parameterized `dte` is `base_dte`,
except that with an active event window and a template that is not
event-required it becomes `max(nearest_event_days + 10, base_dte)` where
`nearest_event_days` is the minimum of the four calendar distances; for a
symbolic `base_dte` it is 37. -/
theorem C6_dte_parameterization (t : StrategyTemplate) (r : RegimeResult)
    (i : MarketInputs) :
    (∀ n : ℤ, t.base_dte = Sum.inl n →
        (¬ (r.event_active ∧ ¬ t.event_required) →
            (StrategySelector.parameterize t r i).dte = n)
        ∧ ((r.event_active ∧ ¬ t.event_required) →
            (StrategySelector.parameterize t r i).dte
              = max (min (min i.events.days_to_fomc i.events.days_to_cpi)
                      (min i.events.days_to_nfp i.events.days_to_earnings) + 10) n))
    ∧ (∀ token : String, t.base_dte = Sum.inr token →
        (StrategySelector.parameterize t r i).dte = 37) := by
  refine ⟨fun n hn => ⟨fun hc => ?_, fun hc => ?_⟩, fun token ht => ?_⟩
  · show StrategySelector.param_dte t r i = n
    unfold StrategySelector.param_dte
    simp only [hn]
    rw [if_neg hc]
  · show StrategySelector.param_dte t r i = _
    unfold StrategySelector.param_dte StrategySelector.nearest_event_days
    simp only [hn]
    rw [if_pos hc]
  · show StrategySelector.param_dte t r i = 37
    unfold StrategySelector.param_dte
    simp only [ht]

/-- Witness for C6: cash_secured_put (integer base_dte 37) outside an
event window keeps dte 37. -/
theorem C6_dte_parameterization_witness :
    (StrategySelector.parameterize cash_secured_put regime_normal_medium
      inputs_vvix20).dte = 37 :=
  ((C6_dte_parameterization cash_secured_put regime_normal_medium
      inputs_vvix20).1 37 rfl).1
    (by simp [regime_normal_medium])

-- ── Rule-list decomposition helpers ─────────────────────────────────────

theorem mem_if_singleton {α : Type} {c : Prop} [Decidable c] {x e : α}
    (h : e ∈ if c then [x] else []) : c ∧ e = x := by
  split_ifs at h with hc
  · exact ⟨hc, List.mem_singleton.mp h⟩
  · exact absurd h (List.not_mem_nil e)

theorem mem_ruleA8 {r : RegimeResult} {prev : Option RegimeResult}
    {e : RuleEvaluation} (h : e ∈ AdjustmentEngine.ruleA8 r prev) :
    e.rule_id = "A8" ∧ e.triggered = true := by
  rcases prev with - | p
  · exact absurd h (List.not_mem_nil e)
  · have h' : e ∈ if p.regime ≠ r.regime then
        [({ rule_id := "A8", rule_name := "Regime Change", triggered := true,
            priority := .CRITICAL,
            action := "Review ALL positions. Close any not appropriate for new regime." }
          : RuleEvaluation)] else [] := h
    obtain ⟨-, rfl⟩ := mem_if_singleton h'
    exact ⟨rfl, rfl⟩

theorem mem_ruleX6 {pos : Position} {r : RegimeResult} {prev : Option RegimeResult}
    {e : RuleEvaluation} (h : e ∈ ExitEngine.ruleX6 pos r prev) :
    e.triggered = true := by
  rcases prev with - | p
  · exact absurd h (List.not_mem_nil e)
  · have h' : e ∈ if p.regime ≠ r.regime then
        (if pos.regime_allowed.getD [] ≠ []
            ∧ ¬ (pos.regime_allowed.getD []).contains r.regime.value
            ∧ ¬ (pos.regime_allowed.getD []).contains "ALL" then
          [({ rule_id := "X6", rule_name := "Regime Exit", triggered := true,
              priority := .CRITICAL,
              action := "Close ALL positions not appropriate for new regime immediately." }
            : RuleEvaluation)] else [])
        else [] := h
    split_ifs at h' with h1 h2
    · obtain rfl := List.mem_singleton.mp h'
      rfl
    · exact absurd h' (List.not_mem_nil e)
    · exact absurd h' (List.not_mem_nil e)

-- filtering each adjustment rule for rule id A6

theorem filter_A6_ruleA1 (pos : Position) :
    (AdjustmentEngine.ruleA1 pos).filter (fun e => e.rule_id == "A6") = [] := by
  unfold AdjustmentEngine.ruleA1
  split_ifs <;> simp

theorem filter_A6_ruleA2 (pos : Position) :
    (AdjustmentEngine.ruleA2 pos).filter (fun e => e.rule_id == "A6") = [] := by
  unfold AdjustmentEngine.ruleA2
  split_ifs <;> simp

theorem filter_A6_ruleA3 (pos : Position) :
    (AdjustmentEngine.ruleA3 pos).filter (fun e => e.rule_id == "A6") = [] := by
  unfold AdjustmentEngine.ruleA3
  split_ifs <;> simp

theorem filter_A6_ruleA4 (pos : Position) :
    (AdjustmentEngine.ruleA4 pos).filter (fun e => e.rule_id == "A6") = [] := by
  unfold AdjustmentEngine.ruleA4
  split_ifs <;> simp

theorem filter_A6_ruleA5 (pos : Position) :
    (AdjustmentEngine.ruleA5 pos).filter (fun e => e.rule_id == "A6") = [] := by
  unfold AdjustmentEngine.ruleA5
  split_ifs <;> simp

theorem filter_A6_ruleA6 (i : MarketInputs) :
    (AdjustmentEngine.ruleA6 i).filter (fun e => e.rule_id == "A6")
      = AdjustmentEngine.ruleA6 i := by
  unfold AdjustmentEngine.ruleA6
  split_ifs <;> simp

theorem filter_A6_ruleA7 (pos : Position) (i : MarketInputs) :
    (AdjustmentEngine.ruleA7 pos i).filter (fun e => e.rule_id == "A6") = [] := by
  unfold AdjustmentEngine.ruleA7
  split_ifs <;> simp

theorem filter_A6_ruleA8 (r : RegimeResult) (prev : Option RegimeResult) :
    (AdjustmentEngine.ruleA8 r prev).filter (fun e => e.rule_id == "A6") = [] := by
  unfold AdjustmentEngine.ruleA8
  rcases prev with - | p
  · rfl
  · simp only
    split_ifs <;> simp

theorem filter_A6_ruleA9 (pos : Position) (i : MarketInputs) :
    (AdjustmentEngine.ruleA9 pos i).filter (fun e => e.rule_id == "A6") = [] := by
  unfold AdjustmentEngine.ruleA9
  split_ifs <;> simp

/-- The A6 entries of a full adjustment evaluation are exactly `ruleA6`. -/
theorem filter_A6_evaluate (pos : Position) (r : RegimeResult) (i : MarketInputs)
    (prev : Option RegimeResult) :
    (AdjustmentEngine.evaluate pos r i prev).filter (fun e => e.rule_id == "A6")
      = AdjustmentEngine.ruleA6 i := by
  unfold AdjustmentEngine.evaluate
  simp only [List.filter_append, filter_A6_ruleA1, filter_A6_ruleA2,
    filter_A6_ruleA3, filter_A6_ruleA4, filter_A6_ruleA5, filter_A6_ruleA6,
    filter_A6_ruleA7, filter_A6_ruleA8, filter_A6_ruleA9]
  simp

/-- The clamped 5-day fraction exceeds 30% exactly when VIX is positive
and the clamped quotient does. -/
theorem vix_5d_pct_gt (v : VolData) :
    AdjustmentEngine.vix_5d_pct v > 30/100 ↔
      (0 < v.vix ∧ v.vix_5d_change / max (v.vix - v.vix_5d_change) 1 > 30/100) := by
  unfold AdjustmentEngine.vix_5d_pct
  split_ifs with h
  · simp [h]
  · constructor
    · intro hlt
      norm_num at hlt
    · rintro ⟨h0, -⟩
      exact absurd h0 h

-- ── C5 ──────────────────────────────────────────────────────────────────

/-- Counterexample to C5 as stated: with VIX 0.9 and 5-day change 0.25 the
fractional change against the prior level 0.65 is 5/13 > 30%, but the
source divides by `max(prior, 1) = 1`, getting 0.25, and does not return
A6. -/
theorem C5_vol_spike_counterexample :
    ¬ (((AdjustmentEngine.evaluate empty_position regime_normal_medium
           a6_cex_inputs none).filter (fun e => e.rule_id == "A6") ≠ [])
        ↔ (a6_cex_inputs.vol.vix_1d_change > 5
            ∨ a6_cex_inputs.vol.vix_5d_change
                / (a6_cex_inputs.vol.vix - a6_cex_inputs.vol.vix_5d_change)
                > 30/100)) := by
  have heval : (AdjustmentEngine.ruleA6 a6_cex_inputs) = [] := by
    unfold AdjustmentEngine.ruleA6
    rw [if_neg]
    norm_num [AdjustmentEngine.vix_5d_pct, a6_cex_inputs, max_def]
  rw [filter_A6_evaluate, heval]
  intro hiff
  have := hiff.mpr (Or.inr (by norm_num [a6_cex_inputs]))
  exact this rfl

/-- C5 amended: rule A6 is returned exactly when the VIX 1-day change
exceeds 5 or VIX is positive and the 5-day change divided by
`max(VIX - 5d change, 1)` exceeds 30%; a returned A6 has priority
CRITICAL, and its action is the upgraded close-all directive exactly when
VIX > 35. -/
theorem C5_vol_spike_rule (pos : Position) (r : RegimeResult) (i : MarketInputs)
    (prev : Option RegimeResult) :
    (((AdjustmentEngine.evaluate pos r i prev).filter
        (fun e => e.rule_id == "A6") ≠ []) ↔
      (i.vol.vix_1d_change > 5
        ∨ (0 < i.vol.vix
           ∧ i.vol.vix_5d_change / max (i.vol.vix - i.vol.vix_5d_change) 1
              > 30/100)))
    ∧ (∀ e ∈ AdjustmentEngine.evaluate pos r i prev, e.rule_id = "A6" →
        e.priority = RulePriority.CRITICAL
        ∧ (i.vol.vix > 35 →
            e.action = "CRITICAL: VIX > 35 - close ALL naked short vol immediately")
        ∧ (¬ i.vol.vix > 35 →
            e.action = "Reduce all short vega by 50%. If VIX > 35: close ALL naked short vol.")) := by
  constructor
  · rw [filter_A6_evaluate]
    unfold AdjustmentEngine.ruleA6
    split_ifs with hc
    · simp only [ne_eq, List.cons_ne_nil, not_false_eq_true, true_iff]
      rcases hc with hc | hc
      · exact Or.inl hc
      · exact Or.inr ((vix_5d_pct_gt i.vol).mp hc)
    · simp only [ne_eq, not_true_eq_false, false_iff, not_or]
      exact ⟨fun h1 => hc (Or.inl h1),
             fun h5 => hc (Or.inr ((vix_5d_pct_gt i.vol).mpr h5))⟩
  · intro e he hid
    unfold AdjustmentEngine.evaluate at he
    simp only [List.mem_append] at he
    rcases he with ((((((((he | he) | he) | he) | he) | he) | he) | he) | he)
    · obtain ⟨-, rfl⟩ := mem_if_singleton (he : e ∈ _)
      exact absurd hid (by simp)
    · obtain ⟨-, rfl⟩ := mem_if_singleton (he : e ∈ _)
      exact absurd hid (by simp)
    · obtain ⟨-, rfl⟩ := mem_if_singleton (he : e ∈ _)
      exact absurd hid (by simp)
    · obtain ⟨-, rfl⟩ := mem_if_singleton (he : e ∈ _)
      exact absurd hid (by simp)
    · obtain ⟨-, rfl⟩ := mem_if_singleton (he : e ∈ _)
      exact absurd hid (by simp)
    · obtain ⟨-, rfl⟩ := mem_if_singleton (he : e ∈ _)
      refine ⟨rfl, fun h35 => ?_, fun h35 => ?_⟩
      · show AdjustmentEngine.ruleA6_action i.vol = _
        unfold AdjustmentEngine.ruleA6_action
        rw [if_pos h35]
      · show AdjustmentEngine.ruleA6_action i.vol = _
        unfold AdjustmentEngine.ruleA6_action
        rw [if_neg h35]
    · obtain ⟨-, rfl⟩ := mem_if_singleton (he : e ∈ _)
      exact absurd hid (by simp)
    · obtain ⟨h8, -⟩ := mem_ruleA8 he
      exact absurd (h8 ▸ hid) (by simp)
    · obtain ⟨-, rfl⟩ := mem_if_singleton (he : e ∈ _)
      exact absurd hid (by simp)

/-- Witness for C5 amended at spec scenario 6 (VIX 40, 1-day change 6):
A6 is returned. -/
theorem C5_vol_spike_rule_witness :
    (AdjustmentEngine.evaluate empty_position regime_normal_medium
      a6_spike_inputs none).filter (fun e => e.rule_id == "A6") ≠ [] :=
  ((C5_vol_spike_rule empty_position regime_normal_medium a6_spike_inputs
      none).1).mpr (Or.inl (by norm_num [a6_spike_inputs]))

-- ── C7 ──────────────────────────────────────────────────────────────────

/-- C7: rule evaluation is total over partial position mappings: every
returned adjustment or exit evaluation has `triggered = true`, and with
every position field absent (each read falling back to 0 or its
documented default, e.g. initial_delta 15, dte 999) no position-dependent
rule fires: the adjustment list can only contain the market-driven A6 and
regime-driven A8, and the exit list is empty. -/
theorem C7_rule_evaluation_robustness (pos : Position) (r : RegimeResult)
    (i : MarketInputs) (prev : Option RegimeResult) (nav : ℚ) :
    (∀ e ∈ AdjustmentEngine.evaluate pos r i prev, e.triggered = true)
    ∧ (∀ e ∈ ExitEngine.evaluate pos r i prev nav, e.triggered = true)
    ∧ (∀ e ∈ AdjustmentEngine.evaluate empty_position r i prev,
        e.rule_id = "A6" ∨ e.rule_id = "A8")
    ∧ ExitEngine.evaluate empty_position r i prev nav = [] := by
  refine ⟨?_, ?_, ?_, ?_⟩
  · intro e he
    unfold AdjustmentEngine.evaluate at he
    simp only [List.mem_append] at he
    rcases he with ((((((((he | he) | he) | he) | he) | he) | he) | he) | he)
    · obtain ⟨-, rfl⟩ := mem_if_singleton (he : e ∈ _); rfl
    · obtain ⟨-, rfl⟩ := mem_if_singleton (he : e ∈ _); rfl
    · obtain ⟨-, rfl⟩ := mem_if_singleton (he : e ∈ _); rfl
    · obtain ⟨-, rfl⟩ := mem_if_singleton (he : e ∈ _); rfl
    · obtain ⟨-, rfl⟩ := mem_if_singleton (he : e ∈ _); rfl
    · obtain ⟨-, rfl⟩ := mem_if_singleton (he : e ∈ _); rfl
    · obtain ⟨-, rfl⟩ := mem_if_singleton (he : e ∈ _); rfl
    · exact (mem_ruleA8 he).2
    · obtain ⟨-, rfl⟩ := mem_if_singleton (he : e ∈ _); rfl
  · intro e he
    unfold ExitEngine.evaluate at he
    simp only [List.mem_append] at he
    rcases he with (((((he | he) | he) | he) | he) | he) | he
    · obtain ⟨-, rfl⟩ := mem_if_singleton (he : e ∈ _); rfl
    · obtain ⟨-, rfl⟩ := mem_if_singleton (he : e ∈ _); rfl
    · obtain ⟨-, rfl⟩ := mem_if_singleton (he : e ∈ _); rfl
    · obtain ⟨-, rfl⟩ := mem_if_singleton (he : e ∈ _); rfl
    · obtain ⟨-, rfl⟩ := mem_if_singleton (he : e ∈ _); rfl
    · exact mem_ruleX6 he
    · obtain ⟨-, rfl⟩ := mem_if_singleton (he : e ∈ _); rfl
  · intro e he
    unfold AdjustmentEngine.evaluate at he
    simp only [List.mem_append] at he
    rcases he with ((((((((he | he) | he) | he) | he) | he) | he) | he) | he)
    · obtain ⟨hc, -⟩ := mem_if_singleton (he : e ∈ _)
      exact absurd hc (by norm_num [empty_position])
    · obtain ⟨hc, -⟩ := mem_if_singleton (he : e ∈ _)
      exact absurd hc (by norm_num [empty_position])
    · obtain ⟨hc, -⟩ := mem_if_singleton (he : e ∈ _)
      exact absurd hc (by norm_num [empty_position])
    · obtain ⟨hc, -⟩ := mem_if_singleton (he : e ∈ _)
      exact absurd hc (by simp [empty_position])
    · obtain ⟨hc, -⟩ := mem_if_singleton (he : e ∈ _)
      exact absurd hc (by norm_num [empty_position])
    · obtain ⟨-, rfl⟩ := mem_if_singleton (he : e ∈ _)
      exact Or.inl rfl
    · obtain ⟨hc, -⟩ := mem_if_singleton (he : e ∈ _)
      exact absurd hc (by simp [empty_position])
    · exact Or.inr (mem_ruleA8 he).1
    · obtain ⟨hc, -⟩ := mem_if_singleton (he : e ∈ _)
      exact absurd hc (by simp [empty_position])
  · have h1 : ExitEngine.ruleX1 empty_position = [] := by
      unfold ExitEngine.ruleX1
      rw [if_neg]
      simp [empty_position]
    have h2 : ExitEngine.ruleX2 empty_position = [] := by
      unfold ExitEngine.ruleX2
      rw [if_neg]
      simp [empty_position]
    have h3 : ExitEngine.ruleX3 empty_position = [] := by
      unfold ExitEngine.ruleX3
      rw [if_neg]
      simp [empty_position]
    have h4 : ExitEngine.ruleX4 empty_position = [] := by
      unfold ExitEngine.ruleX4
      rw [if_neg]
      simp [empty_position]
    have h5 : ExitEngine.ruleX5 empty_position = [] := by
      unfold ExitEngine.ruleX5
      rw [if_neg]
      norm_num [empty_position]
    have h6 : ExitEngine.ruleX6 empty_position r prev = [] := by
      unfold ExitEngine.ruleX6
      rcases prev with - | p
      · rfl
      · simp [empty_position]
    have h7 : ExitEngine.ruleX7 empty_position nav = [] := by
      unfold ExitEngine.ruleX7
      rw [if_neg]
      norm_num [empty_position]
    unfold ExitEngine.evaluate
    rw [h1, h2, h3, h4, h5, h6, h7]
    rfl

/-- Witness for C7: the all-absent position yields an empty exit list. -/
theorem C7_rule_evaluation_robustness_witness :
    ExitEngine.evaluate empty_position regime_normal_medium inputs_vvix20
      none 100000 = [] :=
  (C7_rule_evaluation_robustness empty_position regime_normal_medium
    inputs_vvix20 none 100000).2.2.2

-- ── Selector decomposition helpers ──────────────────────────────────────

/-- Every candidate emitted by the template loop carries gates that all
passed. -/
theorem mem_select_candidates_gates {r : RegimeResult} {i : MarketInputs}
    {objective : String} {c : StrategyCandidate}
    (h : c ∈ StrategySelector.select_candidates r i objective) :
    ∀ g ∈ c.gates, g.passed = true := by
  unfold StrategySelector.select_candidates at h
  rw [List.mem_filterMap] at h
  obtain ⟨p, -, hsome⟩ := h
  split_ifs at hsome with h1 h2
  · obtain rfl := Option.some_injective _ hsome
    intro g hg
    exact List.all_eq_true.mp h1 g hg

/-- The merge sort used by `select` yields a list non-increasing in
`scores.total`. -/
theorem sorted_mergeSort_candidates (l : List StrategyCandidate) :
    List.Sorted (fun a b : StrategyCandidate => b.scores.total ≤ a.scores.total)
      (l.mergeSort StrategySelector.candidate_le) := by
  have h : List.Pairwise
      (fun a b : StrategyCandidate => StrategySelector.candidate_le a b = true)
      (l.mergeSort StrategySelector.candidate_le) :=
    List.sorted_mergeSort
      (fun a b c hab hbc => by
        simp only [StrategySelector.candidate_le, decide_eq_true_eq] at hab hbc ⊢
        exact le_trans hbc hab)
      (fun a b => by
        simp only [StrategySelector.candidate_le, Bool.or_eq_true, decide_eq_true_eq]
        exact le_total b.scores.total a.scores.total)
      l
  exact h.imp fun hab => by
    simpa only [StrategySelector.candidate_le, decide_eq_true_eq] using hab

/-- The fallback logic returns `[]`, the whole top list, or its
two-or-more-legs filtering. -/
theorem select_top_strategies_cases (r : RegimeResult)
    (top : List StrategyCandidate) :
    (StrategySelector.select_top r top).strategies = []
    ∨ (StrategySelector.select_top r top).strategies = top
    ∨ (StrategySelector.select_top r top).strategies
        = top.filter (fun c => decide (2 ≤ c.template.legs)) := by
  rcases top with - | ⟨c, rest⟩
  · exact Or.inl rfl
  · simp only [StrategySelector.select_top]
    split_ifs
    · exact Or.inr (Or.inl rfl)
    · exact Or.inl rfl
    · exact Or.inr (Or.inr rfl)
    · exact Or.inr (Or.inl rfl)

-- ── C2 ──────────────────────────────────────────────────────────────────

/-- C2: for every regime, inputs, objective and nav, the recommendation
contains at most 3 candidates, every returned candidate has every gate
check passed, and the candidate list is non-increasing in
`scores.total`. -/
theorem C2_selector_invariants (r : RegimeResult) (i : MarketInputs)
    (objective : String) (nav : ℚ) :
    (StrategySelector.select r i objective nav).strategies.length ≤ 3
    ∧ (∀ c ∈ (StrategySelector.select r i objective nav).strategies,
        ∀ g ∈ c.gates, g.passed = true)
    ∧ List.Sorted (fun a b : StrategyCandidate => b.scores.total ≤ a.scores.total)
        (StrategySelector.select r i objective nav).strategies := by
  have hcases := select_top_strategies_cases r
    (((StrategySelector.select_candidates r i objective).mergeSort
        StrategySelector.candidate_le).take 3)
  have hsel : (StrategySelector.select r i objective nav).strategies
      = (StrategySelector.select_top r
          (((StrategySelector.select_candidates r i objective).mergeSort
              StrategySelector.candidate_le).take 3)).strategies := rfl
  have hlen3 : (((StrategySelector.select_candidates r i objective).mergeSort
      StrategySelector.candidate_le).take 3).length ≤ 3 := by
    rw [List.length_take]
    exact min_le_left _ _
  have hmemtop : ∀ c, c ∈ ((StrategySelector.select_candidates r i objective).mergeSort
      StrategySelector.candidate_le).take 3 →
      c ∈ StrategySelector.select_candidates r i objective := by
    intro c hc
    exact List.mem_mergeSort.mp ((List.take_sublist 3 _).subset hc)
  have hsorted : List.Sorted
      (fun a b : StrategyCandidate => b.scores.total ≤ a.scores.total)
      (((StrategySelector.select_candidates r i objective).mergeSort
          StrategySelector.candidate_le).take 3) :=
    List.Pairwise.sublist (List.take_sublist 3 _) (sorted_mergeSort_candidates _)
  refine ⟨?_, ?_, ?_⟩
  · rw [hsel]
    rcases hcases with h | h | h <;> rw [h]
    · simp
    · exact hlen3
    · exact le_trans (List.length_filter_le _ _) hlen3
  · rw [hsel]
    intro c hc
    rcases hcases with h | h | h <;> rw [h] at hc
    · cases hc
    · exact mem_select_candidates_gates (hmemtop c hc)
    · exact mem_select_candidates_gates (hmemtop c (List.mem_filter.mp hc).1)
  · rw [hsel]
    rcases hcases with h | h | h <;> rw [h]
    · exact List.Pairwise.nil
    · exact hsorted
    · exact List.Pairwise.sublist (List.filter_sublist _) hsorted

/-- Witness for C2 at a concrete call: at most 3 candidates. -/
theorem C2_selector_invariants_witness :
    (StrategySelector.select regime_normal_medium inputs_vvix20 "income"
      100000).strategies.length ≤ 3 :=
  (C2_selector_invariants regime_normal_medium inputs_vvix20 "income" 100000).1

-- ── Score dimension bounds ──────────────────────────────────────────────

theorem score_edge_bounds (t : StrategyTemplate) (i : MarketInputs)
    (h0 : 0 ≤ i.vol.vix_percentile_1y) (h1 : i.vol.vix_percentile_1y ≤ 100)
    (h2 : 0 ≤ i.vol.iv_rv_spread) :
    0 ≤ StrategySelector.score_edge t i ∧ StrategySelector.score_edge t i ≤ 10 := by
  have hp : (0 : ℚ) ≤ i.vol.vix_percentile_1y / 10 := by positivity
  unfold StrategySelector.score_edge
  split_ifs
  · refine ⟨le_min ?_ (by norm_num), min_le_right _ _⟩
    have hs : (0 : ℚ) ≤ min (i.vol.iv_rv_spread / 1) 3 :=
      le_min (by rw [div_one]; exact h2) (by norm_num)
    linarith
  · exact ⟨le_max_right _ _, max_le (by linarith) (by norm_num)⟩

theorem score_carry_fit_bounds (t : StrategyTemplate) (r : RegimeResult)
    (i : MarketInputs) :
    0 ≤ StrategySelector.score_carry_fit t r i
    ∧ StrategySelector.score_carry_fit t r i ≤ 10 := by
  unfold StrategySelector.score_carry_fit
  split_ifs <;> norm_num

theorem score_tail_bounds (t : StrategyTemplate) (r : RegimeResult) :
    0 ≤ StrategySelector.score_tail t r ∧ StrategySelector.score_tail t r ≤ 10 := by
  unfold StrategySelector.score_tail
  split_ifs <;> norm_num

theorem score_robust_bounds (t : StrategyTemplate)
    (hw : 0 ≤ or_default t.win_rate (55/100))
    (hs : 0 ≤ or_default t.sharpe_hist (1/2)) :
    0 ≤ StrategySelector.score_robust t ∧ StrategySelector.score_robust t ≤ 10 := by
  unfold StrategySelector.score_robust
  exact ⟨le_min (by nlinarith) (by norm_num), min_le_right _ _⟩

theorem score_liquidity_bounds (i : MarketInputs) :
    0 ≤ StrategySelector.score_liquidity i
    ∧ StrategySelector.score_liquidity i ≤ 10 := by
  unfold StrategySelector.score_liquidity
  split_ifs <;> norm_num

theorem score_complexity_bounds (t : StrategyTemplate) :
    0 ≤ StrategySelector.score_complexity t
    ∧ StrategySelector.score_complexity t ≤ 10 := by
  unfold StrategySelector.score_complexity
  split_ifs <;> norm_num

/-- Every catalog template has nonnegative effective win rate and Sharpe
(after the Python `or` defaults). -/
theorem templates_defaults_nonneg :
    ∀ p ∈ StrategyUniverse.TEMPLATES,
      0 ≤ or_default p.2.win_rate (55/100)
      ∧ 0 ≤ or_default p.2.sharpe_hist (1/2) := by
  intro p hp
  simp only [StrategyUniverse.TEMPLATES] at hp
  fin_cases hp <;>
    constructor <;>
      norm_num [or_default, cash_secured_put, put_credit_spread, short_strangle,
        iron_condor, covered_call, calendar_spread_short_front, put_debit_spread,
        call_debit_spread, long_straddle, put_ladder_1x2, vix_call_spread,
        vix_collar_zero_cost, scheduled_convexity, tail_delta_pillar,
        tail_gamma_pillar, tail_vega_pillar, dispersion_long, variance_swap_ko,
        sector_iv_rv]

/-- The 2-decimal rounding of the weighted total differs from the weighted
sum of the 2-decimal-rounded dimensions by at most 1/100. -/
theorem total_weighted_bound (e c t' rb l cx : ℚ) :
    |py_round 2 ((25/100) * e + (20/100) * c + (20/100) * t' + (15/100) * rb
        + (10/100) * l + (10/100) * cx)
      - ((25/100) * py_round 2 e + (20/100) * py_round 2 c
          + (20/100) * py_round 2 t' + (15/100) * py_round 2 rb
          + (10/100) * py_round 2 l + (10/100) * py_round 2 cx)| ≤ 1/100 := by
  have h0 := abs_py_round_sub 2 ((25/100) * e + (20/100) * c + (20/100) * t'
    + (15/100) * rb + (10/100) * l + (10/100) * cx)
  have h1 := abs_py_round_sub 2 e
  have h2 := abs_py_round_sub 2 c
  have h3 := abs_py_round_sub 2 t'
  have h4 := abs_py_round_sub 2 rb
  have h5 := abs_py_round_sub 2 l
  have h6 := abs_py_round_sub 2 cx
  rw [abs_le] at h0 h1 h2 h3 h4 h5 h6 ⊢
  norm_num at h0 h1 h2 h3 h4 h5 h6 ⊢
  constructor <;> nlinarith

-- ── C3 ──────────────────────────────────────────────────────────────────

/-- Counterexample to C3 as stated: for the SHORT_PREMIUM template
cash_secured_put with VIX percentile 50 and IV-RV spread -2 the code
computes edge = min(5 + min(-2, 3), 10) = 3 (it never clamps the spread
below at 0), while the claimed formula
min(vix_pctile/10 + clamp(iv_rv_spread, 0, 3), 10) gives 5. -/
theorem C3_score_edge_counterexample :
    ¬ ((StrategySelector.score cash_secured_put regime_normal_medium
          score_cex_inputs).edge
        = min (score_cex_inputs.vol.vix_percentile_1y / 10
            + min (max score_cex_inputs.vol.iv_rv_spread 0) 3) 10) := by
  norm_num +decide [StrategySelector.score, StrategySelector.score_edge,
    cash_secured_put, score_cex_inputs, py_round, py_round_int, min_def, max_def]

/-- C3 amended: for catalog templates and inputs with VIX percentile in
[0, 100] and a nonnegative IV-RV spread, every stored dimension is in
[0, 10]; the stored edge is the 2-decimal rounding of
min(vix_pctile/10 + clamp(iv_rv_spread, 0, 3), 10) for SHORT_PREMIUM and
of max(10 - vix_pctile/10, 0) for LONG_PREMIUM (for a negative spread the
code omits the lower clamp, and every stored dimension is rounded to 2
decimals); the stored total is within 1/100 of the weighted sum
0.25 edge + 0.20 carry_fit + 0.20 tail_risk + 0.15 robustness +
0.10 liquidity + 0.10 complexity of the stored dimensions. -/
theorem C3_score_dimensions (p : String × StrategyTemplate)
    (hp : p ∈ StrategyUniverse.TEMPLATES) (r : RegimeResult) (i : MarketInputs)
    (h0 : 0 ≤ i.vol.vix_percentile_1y) (h1 : i.vol.vix_percentile_1y ≤ 100)
    (h2 : 0 ≤ i.vol.iv_rv_spread) :
    ((0 ≤ (StrategySelector.score p.2 r i).edge
        ∧ (StrategySelector.score p.2 r i).edge ≤ 10)
     ∧ (0 ≤ (StrategySelector.score p.2 r i).carry_fit
        ∧ (StrategySelector.score p.2 r i).carry_fit ≤ 10)
     ∧ (0 ≤ (StrategySelector.score p.2 r i).tail_risk
        ∧ (StrategySelector.score p.2 r i).tail_risk ≤ 10)
     ∧ (0 ≤ (StrategySelector.score p.2 r i).robustness
        ∧ (StrategySelector.score p.2 r i).robustness ≤ 10)
     ∧ (0 ≤ (StrategySelector.score p.2 r i).liquidity
        ∧ (StrategySelector.score p.2 r i).liquidity ≤ 10)
     ∧ (0 ≤ (StrategySelector.score p.2 r i).complexity
        ∧ (StrategySelector.score p.2 r i).complexity ≤ 10))
    ∧ (p.2.family = StrategyFamily.SHORT_PREMIUM →
        (StrategySelector.score p.2 r i).edge
          = py_round 2 (min (i.vol.vix_percentile_1y / 10
              + min (max i.vol.iv_rv_spread 0) 3) 10))
    ∧ (p.2.family = StrategyFamily.LONG_PREMIUM →
        (StrategySelector.score p.2 r i).edge
          = py_round 2 (max (10 - i.vol.vix_percentile_1y / 10) 0))
    ∧ |(StrategySelector.score p.2 r i).total
        - ((25/100) * (StrategySelector.score p.2 r i).edge
           + (20/100) * (StrategySelector.score p.2 r i).carry_fit
           + (20/100) * (StrategySelector.score p.2 r i).tail_risk
           + (15/100) * (StrategySelector.score p.2 r i).robustness
           + (10/100) * (StrategySelector.score p.2 r i).liquidity
           + (10/100) * (StrategySelector.score p.2 r i).complexity)| ≤ 1/100 := by
  obtain ⟨hw, hsh⟩ := templates_defaults_nonneg p hp
  refine ⟨⟨?_, ?_, ?_, ?_, ?_, ?_⟩, fun hf => ?_, fun hf => ?_, ?_⟩
  · exact py_round2_bounds (score_edge_bounds p.2 i h0 h1 h2).1
      (score_edge_bounds p.2 i h0 h1 h2).2
  · exact py_round2_bounds (score_carry_fit_bounds p.2 r i).1
      (score_carry_fit_bounds p.2 r i).2
  · exact py_round2_bounds (score_tail_bounds p.2 r).1 (score_tail_bounds p.2 r).2
  · exact py_round2_bounds (score_robust_bounds p.2 hw hsh).1
      (score_robust_bounds p.2 hw hsh).2
  · exact py_round2_bounds (score_liquidity_bounds i).1 (score_liquidity_bounds i).2
  · exact py_round2_bounds (score_complexity_bounds p.2).1
      (score_complexity_bounds p.2).2
  · show py_round 2 (StrategySelector.score_edge p.2 i) = _
    congr 1
    unfold StrategySelector.score_edge
    rw [if_pos hf, div_one, max_eq_left h2]
  · show py_round 2 (StrategySelector.score_edge p.2 i) = _
    congr 1
    unfold StrategySelector.score_edge
    rw [if_neg (by rw [hf]; exact fun hc => by cases hc)]
  · exact total_weighted_bound (StrategySelector.score_edge p.2 i)
      (StrategySelector.score_carry_fit p.2 r i) (StrategySelector.score_tail p.2 r)
      (StrategySelector.score_robust p.2) (StrategySelector.score_liquidity i)
      (StrategySelector.score_complexity p.2)

/-- Witness for C3 amended: cash_secured_put, percentile 50, spread 2. -/
theorem C3_score_dimensions_witness :
    (StrategySelector.score cash_secured_put regime_normal_medium
        score_pos_inputs).edge ≤ 10
    ∧ 0 ≤ (StrategySelector.score cash_secured_put regime_normal_medium
        score_pos_inputs).edge := by
  have h := C3_score_dimensions ("cash_secured_put", cash_secured_put)
    (by unfold StrategyUniverse.TEMPLATES; exact List.mem_cons_self _ _)
    regime_normal_medium score_pos_inputs
    (by norm_num [score_pos_inputs]) (by norm_num [score_pos_inputs])
    (by norm_num [score_pos_inputs])
  exact ⟨h.1.1.2, h.1.1.1⟩

end OptionsTrader
